import Mathlib

/-!
# Credential resolver of the Dynatrace OneAgent operator

A shallow embedding of `pkg/controller/utils/utils.go`: the functions
`GetTokensName`, `extractToken`, `verifySecret`, `StaticDynatraceClient` and
`BuildDynatraceClient`, together with the collaborators they call (the secret
store, the logger and the Dynatrace client constructor), followed by theorems
about them.

Go values are represented as follows.

* A Go `string` or `[]byte` value is the Lean `String` of the text it encodes (the
  bytes are taken to be valid UTF-8, so that `strings.TrimSpace` sees whole code points).
* A Go `error` is an `Option GoError`; `none` is `nil`.
* A Go pair `(v, err)` is a Lean pair.
* A Go `map[string][]byte` is an association list read with `List.lookup`.
* Calls that leave the function (store fetch, log line, client constructor) and
  the calls to the validation and extraction helpers are recorded, in program
  order, in the `trace` of the returned `Outcome`.
-/

/-! ## Library values -/

/-- Go `error` values. `status` is a Kubernetes API status error (it carries the
status reason that `errors.IsNotFound` inspects), `errorString` is the error built
by `fmt.Errorf` from a format without a wrapping verb. -/
inductive GoError where
  | status (reason : String) (message : String)
  | errorString (s : String)
deriving DecidableEq, Repr

/-- The method `Error()` of a Go error: its message. -/
def GoError.Error : GoError → String
  | .status _ message => message
  | .errorString s => s

/-- The call `errors.IsNotFound(err)` of `k8s.io/apimachinery/pkg/api/errors`: true exactly
for an API status error whose reason is `NotFound`; false for `nil`. -/
def errors.IsNotFound : Option GoError → Bool
  | some (.status reason _) => reason == "NotFound"
  | _ => false

/-- The predicate `unicode.IsSpace` of the Go standard library: the code points with
the Unicode White_Space property. -/
def unicode.IsSpace (r : Char) : Bool :=
  let n := r.toNat
  (9 ≤ n && n ≤ 13) || n == 0x20 || n == 0x85 || n == 0xA0 || n == 0x1680
    || (0x2000 ≤ n && n ≤ 0x200A) || n == 0x2028 || n == 0x2029 || n == 0x202F
    || n == 0x205F || n == 0x3000

/-- The function `strings.TrimLeftFunc(s, unicode.IsSpace)` on the characters of a string. -/
def strings.trimLeft (s : List Char) : List Char :=
  s.dropWhile unicode.IsSpace

/-- The function `strings.TrimRightFunc(s, unicode.IsSpace)` on the characters of a string. -/
def strings.trimRight (s : List Char) : List Char :=
  (s.reverse.dropWhile unicode.IsSpace).reverse

/-- The function `strings.TrimSpace`: the string without its leading and trailing white space. -/
def strings.TrimSpace (s : String) : String :=
  ⟨strings.trimRight (strings.trimLeft s.data)⟩

/-! ## Data model -/

/-- The type `client.ObjectKey`: the address of a namespaced object. -/
structure ObjectKey where
  Namespace : String
  Name : String
deriving DecidableEq, Repr

/-- The fields of `corev1.Secret` the code reads: the object name and the data mapping.
The default value is the zero value `corev1.Secret{}`. -/
structure Secret where
  Name : String := ""
  Data : List (String × String) := []
deriving DecidableEq, Repr

/-- Modelled from the spec: the proxy configuration of an instance, an inline value
and the name of a secret holding the proxy string; an unset field is the empty string. -/
structure OneAgentProxy where
  Value : String := ""
  ValueFrom : String := ""
deriving DecidableEq, Repr

/-- Modelled from the spec: the fields of the instance specification the resolver reads. -/
structure OneAgentSpec where
  ApiUrl : String := ""
  SkipCertCheck : Bool := false
  Tokens : String := ""
  Proxy : Option OneAgentProxy := none
deriving DecidableEq, Repr

/-- Modelled from the spec: the instance descriptor `dynatracev1alpha1.OneAgent`. -/
structure OneAgent where
  Name : String := ""
  Namespace : String := ""
  Spec : OneAgentSpec := {}
deriving DecidableEq, Repr

/-- Modelled from the spec: the client options, built by the option constructors
`dtclient.SkipCertificateValidation(bool)` and `dtclient.Proxy(url)`. -/
inductive dtclient.Option where
  | SkipCertificateValidation (skip : Bool)
  | Proxy (proxyURL : String)
deriving DecidableEq, Repr

/-- Modelled from the spec: the signature of the client constructor `dtclient.NewClient`,
`new(endpointURL, apiToken, installerToken, options...) -> (client, error)`. The
constructor itself is a parameter of the development. -/
abbrev NewClientFunc (C : Type) : Type :=
  String → String → String → List dtclient.Option → Option C × Option GoError

/-- The secret store accessor `client.Client`, `fetch(namespace, name) -> (secret, error)`. -/
structure client.Client where
  fetch : ObjectKey → Except GoError Secret

/-- The call `rtc.Get(ctx, key, obj)`: the object after the call and the returned error.
A successful fetch overwrites `obj`, a failed one leaves it as it was passed. -/
def client.Client.Get (rtc : client.Client) (key : ObjectKey) (obj : Secret) :
    Secret × Option GoError :=
  match rtc.fetch key with
  | .ok s => (s, none)
  | .error e => (obj, some e)

/-- One recorded call of `BuildDynatraceClient`: a store fetch `rtc.Get` with its key, a
call of `verifySecret` or `extractToken` with its arguments, a log line `logger.Info`
with its message, or a call of the constructor `dtclient.NewClient` with its arguments. -/
inductive Event where
  | Get (key : ObjectKey)
  | verifySecret (secret : Secret)
  | Info (msg : String)
  | extractToken (secret : Secret) (key : String)
  | NewClient (url apiToken paasToken : String) (opts : List dtclient.Option)
deriving DecidableEq, Repr

/-- What a resolver call produced: the returned pair `(client, error)` and the calls it made. -/
structure Outcome (C : Type) where
  client : Option C
  err : Option GoError
  trace : List Event
deriving DecidableEq, Repr

/-! ## The program -/

/-- The constant `DynatracePaasToken`. -/
def DynatracePaasToken : String := "paasToken"

/-- The constant `DynatraceApiToken`. -/
def DynatraceApiToken : String := "apiToken"

/-- The type `DynatraceClientFunc`: a resolver from a store and an instance to a client.
The store is an interface value and the instance a pointer: either may be `nil`. -/
abbrev DynatraceClientFunc (C : Type) : Type :=
  Option client.Client → Option OneAgent → Outcome C

/-- The function `GetTokensName`: the name of the secret that holds the tokens. -/
def GetTokensName (oa : OneAgent) : String :=
  let secretName := oa.Name
  if oa.Spec.Tokens ≠ "" then oa.Spec.Tokens else secretName

/-- The function `extractToken`: the pair `(string, error)` it returns. The error is the
one built by `fmt.Errorf("missing token %s", key)`. -/
def extractToken (secret : Secret) (key : String) : String × Option GoError :=
  match secret.Data.lookup key with
  | none => ("", some (.errorString ("missing token " ++ key)))
  | some value => (strings.TrimSpace value, none)

/-- The loop of `verifySecret` over the remaining token keys; the error is the one built
by `fmt.Errorf("invalid secret %s, %s", secret.Name, err)`. -/
def verifySecret.loop (secret : Secret) : List String → Option GoError
  | [] => none
  | token :: rest =>
    match (extractToken secret token).2 with
    | some err => some (.errorString ("invalid secret " ++ secret.Name ++ ", " ++ err.Error))
    | none => verifySecret.loop secret rest

/-- The function `verifySecret`: the loop run on the keys in the order of the source,
`DynatracePaasToken` first. -/
def verifySecret (secret : Secret) : Option GoError :=
  verifySecret.loop secret [DynatracePaasToken, DynatraceApiToken]

/-- The function `StaticDynatraceClient`: a resolver always returning `c`. -/
def StaticDynatraceClient {C : Type} (c : Option C) : DynatraceClientFunc C :=
  fun _ _ => ⟨c, none, []⟩

/-- The proxy block of `BuildDynatraceClient` (the statements on `p := instance.Spec.Proxy`),
run with the options and the trace accumulated so far: an error to return at once, if
any, and the options and the trace after the block. -/
def BuildDynatraceClient.proxy (rtc : client.Client) (oa : OneAgent)
    (opts : List dtclient.Option) (tr : List Event) :
    Option GoError × List dtclient.Option × List Event :=
  match oa.Spec.Proxy with
  | none => (none, opts, tr)
  | some p =>
    if p.ValueFrom ≠ "" then
      let pkey : ObjectKey := ⟨oa.Namespace, p.ValueFrom⟩
      let got := rtc.Get pkey {}
      let proxySecret := got.1
      let err := got.2
      let tr := tr ++ [Event.Get pkey]
      if err ≠ none then
        (none, opts, tr ++ [Event.Info "Failed to get proxy field within proxy secret!"])
      else
        let tr := tr ++ [Event.extractToken proxySecret "proxy"]
        match extractToken proxySecret "proxy" with
        | (_, some err) => (some err, opts, tr)
        | (proxyURL, none) => (none, opts ++ [.Proxy proxyURL], tr)
    else if p.Value ≠ "" then (none, opts ++ [.Proxy p.Value], tr)
    else (none, opts, tr)

/-- The function `BuildDynatraceClient`, for a store and an instance that are not `nil`
and the client constructor `NewClient`: the returned pair and the recorded calls. -/
def BuildDynatraceClient {C : Type} (NewClient : NewClientFunc C)
    (rtc : client.Client) (oa : OneAgent) : Outcome C :=
  let key : ObjectKey := ⟨oa.Namespace, GetTokensName oa⟩
  -- secret := &corev1.Secret{} ; err := rtc.Get(ctx, key, secret)
  let got := rtc.Get key {}
  let secret := got.1
  let err := got.2
  let tr := [Event.Get key]
  if err ≠ none ∧ errors.IsNotFound err = false then ⟨none, err, tr⟩
  else
    let tr := tr ++ [Event.verifySecret secret]
    match verifySecret secret with
    | some err => ⟨none, some err, tr⟩
    | none =>
      -- initialize dynatrace client
      let opts : List dtclient.Option := []
      let opts :=
        if oa.Spec.SkipCertCheck then opts ++ [.SkipCertificateValidation true] else opts
      match BuildDynatraceClient.proxy rtc oa opts tr with
      | (some err, _, tr) => ⟨none, some err, tr⟩
      | (none, opts, tr) =>
        let tr := tr ++ [Event.extractToken secret DynatraceApiToken]
        match extractToken secret DynatraceApiToken with
        | (_, some err) => ⟨none, some err, tr⟩
        | (apiToken, none) =>
          let tr := tr ++ [Event.extractToken secret DynatracePaasToken]
          match extractToken secret DynatracePaasToken with
          | (_, some err) => ⟨none, some err, tr⟩
          | (paasToken, none) =>
            let made := NewClient oa.Spec.ApiUrl apiToken paasToken opts
            ⟨made.1, made.2, tr ++ [Event.NewClient oa.Spec.ApiUrl apiToken paasToken opts]⟩

/-! ## Sample collaborators and inputs

Concrete stores, constructors, secrets and instances on which the theorems are instantiated. -/

/-- A constructor that accepts every call and returns its arguments as the client. -/
def echoClient : NewClientFunc (String × String × String × List dtclient.Option) :=
  fun url apiToken paasToken opts => (some (url, apiToken, paasToken, opts), none)

/-- Modelled from the spec: a client constructor `dtclient.NewClient`, which is not among
the sources, that keeps the token-pair requirement of the spec ("both must be present and
non-empty after trimming whitespace"): it refuses an empty API token or PaaS token with an
error, and otherwise returns its arguments as the client. -/
def strictClient : NewClientFunc (String × String × String × List dtclient.Option) :=
  fun url apiToken paasToken opts =>
    if apiToken = "" ∨ paasToken = "" then (none, some (.errorString "token is empty"))
    else (some (url, apiToken, paasToken, opts), none)

/-- A store built from a list of secrets: a fetch returns the first secret stored under
the key, and a not-found status error when there is none. -/
def storeOf (objs : List (ObjectKey × Secret)) : client.Client where
  fetch := fun key =>
    match objs.lookup key with
    | some s => .ok s
    | none => .error (.status "NotFound" ("secrets \"" ++ key.Name ++ "\" not found"))

/-- A store in which every fetch fails with the given error. -/
def failingStore (e : GoError) : client.Client where
  fetch := fun _ => .error e

/-- An instance named `oneagent` in namespace `dynatrace`, without proxy configuration. -/
def sampleOneAgent : OneAgent :=
  { Name := "oneagent", Namespace := "dynatrace",
    Spec := { ApiUrl := "https://ENVIRONMENTID.live.dynatrace.com/api" } }

/-- A token secret holding both required keys, the API token padded with white space. -/
def sampleSecret : Secret :=
  { Name := "oneagent", Data := [("apiToken", " abc123\n"), ("paasToken", "xyz789")] }

/-- A token secret without the `paasToken` key. -/
def secretNoPaas : Secret :=
  { Name := "oneagent", Data := [("apiToken", "abc123")] }

/-- A token secret whose API token consists of white space only. -/
def secretBlankApi : Secret :=
  { Name := "oneagent", Data := [("apiToken", " \n"), ("paasToken", "xyz789")] }

/-- A proxy secret holding the proxy URL padded with white space. -/
def sampleProxySecret : Secret :=
  { Name := "proxy-secret", Data := [("proxy", " http://proxy.example:3128\n")] }

/-- A secret that exists but has no `proxy` key. -/
def secretNoProxyKey : Secret :=
  { Name := "proxy-secret", Data := [("url", "http://proxy.example:3128")] }

/-- The sample instance with `SkipCertCheck` set and a proxy configuration that gives both
a secret reference and an inline value. -/
def proxiedOneAgent : OneAgent :=
  { sampleOneAgent with
    Spec := { ApiUrl := "https://ENVIRONMENTID.live.dynatrace.com/api", SkipCertCheck := true,
              Proxy := some { Value := "http://inline.example:8080",
                              ValueFrom := "proxy-secret" } } }

/-- The sample instance with an inline proxy value, padded with white space, and no
secret reference. -/
def inlineOneAgent : OneAgent :=
  { sampleOneAgent with
    Spec := { ApiUrl := "https://ENVIRONMENTID.live.dynatrace.com/api",
              Proxy := some { Value := " http://inline.example:8080 ", ValueFrom := "" } } }

/-- The sample instance with a proxy configuration whose two fields are both empty. -/
def blankProxyOneAgent : OneAgent :=
  { sampleOneAgent with
    Spec := { ApiUrl := "https://ENVIRONMENTID.live.dynatrace.com/api",
              Proxy := some { Value := "", ValueFrom := "" } } }

/-- The sample instance with the tokens-secret override set. -/
def overrideOneAgent : OneAgent :=
  { sampleOneAgent with
    Spec := { ApiUrl := "https://ENVIRONMENTID.live.dynatrace.com/api",
              Tokens := "custom-tokens" } }

/-- A token secret without the `apiToken` key. -/
def secretNoApi : Secret :=
  { Name := "oneagent", Data := [("paasToken", "xyz789")] }

/-- A token secret whose API token is present with an empty value. -/
def secretEmptyApi : Secret :=
  { Name := "oneagent", Data := [("apiToken", ""), ("paasToken", "xyz789")] }

/-! ## Statement vocabulary -/

/-- Modelled from the spec: the contract of the client constructor `dtclient.NewClient`,
which is not among the sources. The spec requires the two tokens to be "present and
non-empty after trimming whitespace" and returns a client only for such tokens; the
resolver only trims them and hands them over, so the refusal is the part of the
constructor: it returns no client when the API token or the PaaS token is empty. -/
def RefusesEmptyToken {C : Type} (NewClient : NewClientFunc C) : Prop :=
  ∀ url apiToken paasToken opts,
    apiToken = "" ∨ paasToken = "" → (NewClient url apiToken paasToken opts).1 = none

/-- The address of the token secret of an instance: its namespace and `GetTokensName`. -/
def tokensKey (oa : OneAgent) : ObjectKey :=
  ⟨oa.Namespace, GetTokensName oa⟩

/-- The options `BuildDynatraceClient` holds when it enters the proxy block. -/
def certOpts (oa : OneAgent) : List dtclient.Option :=
  if oa.Spec.SkipCertCheck then [.SkipCertificateValidation true] else []

/-- Whether an option is a proxy option. -/
def dtclient.Option.isProxy : dtclient.Option → Bool
  | .Proxy _ => true
  | .SkipCertificateValidation _ => false

/-- Whether a recorded call is a call of the client constructor. -/
def Event.isNewClient : Event → Bool
  | .NewClient _ _ _ _ => true
  | _ => false

/-- Whether a recorded call is a store fetch. -/
def Event.isGet : Event → Bool
  | .Get _ => true
  | _ => false

/-- The key that the error of a failed validation names: the first absent key in the
order of the loop of `verifySecret`. -/
def firstMissing (secret : Secret) : String :=
  if secret.Data.lookup DynatracePaasToken = none then DynatracePaasToken else DynatraceApiToken

/-- The message logged when the proxy secret cannot be fetched. -/
def proxyFetchFailed : String := "Failed to get proxy field within proxy secret!"

/-- The fetch of the proxy secret that the proxy configuration of an instance asks for:
one fetch at the namespace of the instance and the name `ValueFrom` when the configuration
is present with a non-empty `ValueFrom`, none otherwise. -/
def proxyFetches (oa : OneAgent) : List Event :=
  match oa.Spec.Proxy with
  | some p => if p.ValueFrom ≠ "" then [Event.Get ⟨oa.Namespace, p.ValueFrom⟩] else []
  | none => []

/-! ## Lemmas on extraction and validation -/

theorem extractToken_absent {secret : Secret} {key : String}
    (h : secret.Data.lookup key = none) :
    extractToken secret key = ("", some (.errorString ("missing token " ++ key))) := by
  simp [extractToken, h]

theorem extractToken_present {secret : Secret} {key value : String}
    (h : secret.Data.lookup key = some value) :
    extractToken secret key = (strings.TrimSpace value, none) := by
  simp [extractToken, h]

/-- The message of a failed validation, as `fmt.Errorf` assembles it. -/
theorem invalid_secret_message (name key : String) :
    "invalid secret " ++ name ++ ", " ++ (GoError.errorString ("missing token " ++ key)).Error
      = "invalid secret " ++ name ++ ", missing token " ++ key := by
  have h : ", " ++ "missing token " = ", missing token " := by decide
  simp only [GoError.Error, String.append_assoc]
  rw [← String.append_assoc ", ", h]

theorem verifySecret_paas_absent {secret : Secret}
    (h : secret.Data.lookup DynatracePaasToken = none) :
    verifySecret secret = some (.errorString
      ("invalid secret " ++ secret.Name ++ ", missing token " ++ DynatracePaasToken)) := by
  simp only [verifySecret, verifySecret.loop, extractToken_absent h, invalid_secret_message]

theorem verifySecret_api_absent {secret : Secret} {paas : String}
    (hp : secret.Data.lookup DynatracePaasToken = some paas)
    (h : secret.Data.lookup DynatraceApiToken = none) :
    verifySecret secret = some (.errorString
      ("invalid secret " ++ secret.Name ++ ", missing token " ++ DynatraceApiToken)) := by
  simp only [verifySecret, verifySecret.loop, extractToken_absent h, extractToken_present hp,
    invalid_secret_message]

theorem verifySecret_present {secret : Secret} {api paas : String}
    (ha : secret.Data.lookup DynatraceApiToken = some api)
    (hp : secret.Data.lookup DynatracePaasToken = some paas) :
    verifySecret secret = none := by
  simp only [verifySecret, verifySecret.loop, extractToken_present ha, extractToken_present hp]

theorem verifySecret_missing {secret : Secret}
    (h : secret.Data.lookup DynatraceApiToken = none
      ∨ secret.Data.lookup DynatracePaasToken = none) :
    verifySecret secret = some (.errorString
      ("invalid secret " ++ secret.Name ++ ", missing token " ++ firstMissing secret)) := by
  unfold firstMissing
  cases hp : secret.Data.lookup DynatracePaasToken with
  | none => simpa using verifySecret_paas_absent hp
  | some paas =>
    have ha : secret.Data.lookup DynatraceApiToken = none := by
      rcases h with h | h
      · exact h
      · rw [hp] at h; cases h
    simpa using verifySecret_api_absent hp ha

/-! ## Lemmas on the store and the orchestration -/

theorem Get_ok {rtc : client.Client} {key : ObjectKey} {s : Secret} (obj : Secret)
    (h : rtc.fetch key = .ok s) : rtc.Get key obj = (s, none) := by
  simp [client.Client.Get, h]

theorem Get_error {rtc : client.Client} {key : ObjectKey} {e : GoError} (obj : Secret)
    (h : rtc.fetch key = .error e) : rtc.Get key obj = (obj, some e) := by
  simp [client.Client.Get, h]

/-- The outcome when validation fails on the secret left by the first fetch. -/
theorem build_invalid {C : Type} (NewClient : NewClientFunc C) (rtc : client.Client)
    (oa : OneAgent) (s : Secret) (err : Option GoError) (e : GoError)
    (hget : rtc.Get (tokensKey oa) {} = (s, err))
    (hgo : err = none ∨ errors.IsNotFound err = true)
    (hv : verifySecret s = some e) :
    BuildDynatraceClient NewClient rtc oa
      = ⟨none, some e, [Event.Get (tokensKey oa), Event.verifySecret s]⟩ := by
  have hguard : ¬ (err ≠ none ∧ errors.IsNotFound err = false) := by
    rintro ⟨h1, h2⟩
    rcases hgo with h | h
    · exact h1 h
    · rw [h] at h2; cases h2
  unfold tokensKey at hget ⊢
  simp only [BuildDynatraceClient, hget, hguard, if_false, hv, List.singleton_append]

/-- A failed validation leaves no constructor call in the trace. -/
theorem no_newClient_of_invalid (key : ObjectKey) (s : Secret) :
    ∀ ev ∈ [Event.Get key, Event.verifySecret s], ev.isNewClient = false := by
  intro ev hev
  simp only [List.mem_cons, List.mem_singleton, List.not_mem_nil, or_false] at hev
  rcases hev with rfl | rfl <;> rfl

/-- The outcome when the token secret is fetched and holds both required keys. -/
theorem build_valid {C : Type} (NewClient : NewClientFunc C) (rtc : client.Client)
    (oa : OneAgent) (s : Secret) (api paas : String)
    (hs : rtc.fetch (tokensKey oa) = .ok s)
    (ha : s.Data.lookup DynatraceApiToken = some api)
    (hp : s.Data.lookup DynatracePaasToken = some paas) :
    BuildDynatraceClient NewClient rtc oa
      = match BuildDynatraceClient.proxy rtc oa (certOpts oa)
          [Event.Get (tokensKey oa), Event.verifySecret s] with
        | (some err, _, tr) => ⟨none, some err, tr⟩
        | (none, opts, tr) =>
          ⟨(NewClient oa.Spec.ApiUrl (strings.TrimSpace api) (strings.TrimSpace paas) opts).1,
           (NewClient oa.Spec.ApiUrl (strings.TrimSpace api) (strings.TrimSpace paas) opts).2,
           tr ++ [Event.extractToken s DynatraceApiToken,
                  Event.extractToken s DynatracePaasToken,
                  Event.NewClient oa.Spec.ApiUrl (strings.TrimSpace api)
                    (strings.TrimSpace paas) opts]⟩ := by
  unfold tokensKey at hs ⊢
  have hcert : (if oa.Spec.SkipCertCheck = true
      then ([] : List dtclient.Option) ++ [.SkipCertificateValidation true] else [])
      = certOpts oa := by
    simp [certOpts]
  simp only [BuildDynatraceClient, Get_ok _ hs, verifySecret_present ha hp,
    extractToken_present ha, extractToken_present hp, hcert, List.singleton_append]
  simp

/-- The outcome when the first fetch fails with an error that is not a not-found error. -/
theorem build_fetch_error {C : Type} (NewClient : NewClientFunc C) (rtc : client.Client)
    (oa : OneAgent) (e : GoError) (hfetch : rtc.fetch (tokensKey oa) = .error e)
    (hnf : errors.IsNotFound (some e) = false) :
    BuildDynatraceClient NewClient rtc oa = ⟨none, some e, [Event.Get (tokensKey oa)]⟩ := by
  have hget := Get_error {} hfetch
  unfold tokensKey at hget ⊢
  simp [BuildDynatraceClient, hget, hnf]

/-! ## Lemmas on the proxy block -/

theorem proxy_absent {rtc : client.Client} {oa : OneAgent} (opts : List dtclient.Option)
    (tr : List Event) (h : oa.Spec.Proxy = none) :
    BuildDynatraceClient.proxy rtc oa opts tr = (none, opts, tr) := by
  simp [BuildDynatraceClient.proxy, h]

theorem proxy_ref_fetch_error {rtc : client.Client} {oa : OneAgent} {p : OneAgentProxy}
    {e : GoError} (opts : List dtclient.Option) (tr : List Event)
    (h : oa.Spec.Proxy = some p) (hfrom : p.ValueFrom ≠ "")
    (hfetch : rtc.fetch ⟨oa.Namespace, p.ValueFrom⟩ = .error e) :
    BuildDynatraceClient.proxy rtc oa opts tr
      = (none, opts, tr ++ [Event.Get ⟨oa.Namespace, p.ValueFrom⟩, Event.Info proxyFetchFailed]) := by
  simp [BuildDynatraceClient.proxy, h, hfrom, Get_error _ hfetch, proxyFetchFailed]

theorem proxy_ref_key_absent {rtc : client.Client} {oa : OneAgent} {p : OneAgentProxy}
    {ps : Secret} (opts : List dtclient.Option) (tr : List Event)
    (h : oa.Spec.Proxy = some p) (hfrom : p.ValueFrom ≠ "")
    (hfetch : rtc.fetch ⟨oa.Namespace, p.ValueFrom⟩ = .ok ps)
    (hkey : ps.Data.lookup "proxy" = none) :
    BuildDynatraceClient.proxy rtc oa opts tr
      = (some (.errorString "missing token proxy"), opts,
          tr ++ [Event.Get ⟨oa.Namespace, p.ValueFrom⟩, Event.extractToken ps "proxy"]) := by
  have hm : "missing token " ++ "proxy" = "missing token proxy" := by decide
  simp [BuildDynatraceClient.proxy, h, hfrom, Get_ok _ hfetch, extractToken_absent hkey, hm]

theorem proxy_ref_key_present {rtc : client.Client} {oa : OneAgent} {p : OneAgentProxy}
    {ps : Secret} {v : String} (opts : List dtclient.Option) (tr : List Event)
    (h : oa.Spec.Proxy = some p) (hfrom : p.ValueFrom ≠ "")
    (hfetch : rtc.fetch ⟨oa.Namespace, p.ValueFrom⟩ = .ok ps)
    (hkey : ps.Data.lookup "proxy" = some v) :
    BuildDynatraceClient.proxy rtc oa opts tr
      = (none, opts ++ [.Proxy (strings.TrimSpace v)],
          tr ++ [Event.Get ⟨oa.Namespace, p.ValueFrom⟩, Event.extractToken ps "proxy"]) := by
  simp [BuildDynatraceClient.proxy, h, hfrom, Get_ok _ hfetch, extractToken_present hkey]

theorem proxy_inline {rtc : client.Client} {oa : OneAgent} {p : OneAgentProxy}
    (opts : List dtclient.Option) (tr : List Event)
    (h : oa.Spec.Proxy = some p) (hfrom : p.ValueFrom = "") (hval : p.Value ≠ "") :
    BuildDynatraceClient.proxy rtc oa opts tr = (none, opts ++ [.Proxy p.Value], tr) := by
  simp [BuildDynatraceClient.proxy, h, hfrom, hval]

theorem proxy_blank {rtc : client.Client} {oa : OneAgent} {p : OneAgentProxy}
    (opts : List dtclient.Option) (tr : List Event)
    (h : oa.Spec.Proxy = some p) (hfrom : p.ValueFrom = "") (hval : p.Value = "") :
    BuildDynatraceClient.proxy rtc oa opts tr = (none, opts, tr) := by
  simp [BuildDynatraceClient.proxy, h, hfrom, hval]

/-- Every run of the proxy block either fails with the trace extended by calls other than
the constructor, or extends the options by at most one proxy option. -/
theorem proxy_shape (rtc : client.Client) (oa : OneAgent) (opts : List dtclient.Option)
    (tr : List Event) :
    ∃ (err : Option GoError) (popts : List dtclient.Option) (ptr : List Event),
      BuildDynatraceClient.proxy rtc oa opts tr = (err, opts ++ popts, tr ++ ptr)
      ∧ (popts = [] ∨ ∃ url, popts = [.Proxy url])
      ∧ (oa.Spec.Proxy = none → popts = [])
      ∧ ∀ ev ∈ ptr, ev.isNewClient = false := by
  cases h : oa.Spec.Proxy with
  | none => exact ⟨none, [], [], by simp [proxy_absent _ _ h], Or.inl rfl, fun _ => rfl, by simp⟩
  | some p =>
    by_cases hfrom : p.ValueFrom = ""
    · by_cases hval : p.Value = ""
      · exact ⟨none, [], [], by simp [proxy_blank _ _ h hfrom hval], Or.inl rfl, by simp,
          by simp⟩
      · exact ⟨none, [.Proxy p.Value], [], by simp [proxy_inline _ _ h hfrom hval],
          Or.inr ⟨_, rfl⟩, by simp, by simp⟩
    · cases hfetch : rtc.fetch ⟨oa.Namespace, p.ValueFrom⟩ with
      | error e =>
        refine ⟨none, [], [Event.Get ⟨oa.Namespace, p.ValueFrom⟩, Event.Info proxyFetchFailed],
          ?_, Or.inl rfl, by simp, by simp [Event.isNewClient]⟩
        rw [proxy_ref_fetch_error _ _ h hfrom hfetch, List.append_nil]
      | ok ps =>
        cases hkey : ps.Data.lookup "proxy" with
        | none =>
          refine ⟨some (.errorString "missing token proxy"), [],
            [Event.Get ⟨oa.Namespace, p.ValueFrom⟩, Event.extractToken ps "proxy"],
            ?_, Or.inl rfl, by simp, by simp [Event.isNewClient]⟩
          rw [proxy_ref_key_absent _ _ h hfrom hfetch hkey, List.append_nil]
        | some v =>
          refine ⟨none, [.Proxy (strings.TrimSpace v)],
            [Event.Get ⟨oa.Namespace, p.ValueFrom⟩, Event.extractToken ps "proxy"],
            ?_, Or.inr ⟨_, rfl⟩, by simp, by simp [Event.isNewClient]⟩
          rw [proxy_ref_key_present _ _ h hfrom hfetch hkey]

/-- The proxy block returns an error exactly when a referenced proxy secret is fetched
and lacks the key `proxy`. -/
theorem proxy_err_none_of_not_fatal {rtc : client.Client} {oa : OneAgent}
    (opts : List dtclient.Option) (tr : List Event)
    (hok : ∀ p ps, oa.Spec.Proxy = some p → p.ValueFrom ≠ "" →
      rtc.fetch ⟨oa.Namespace, p.ValueFrom⟩ = .ok ps → ps.Data.lookup "proxy" ≠ none) :
    (BuildDynatraceClient.proxy rtc oa opts tr).1 = none := by
  cases h : oa.Spec.Proxy with
  | none => rw [proxy_absent _ _ h]
  | some p =>
    by_cases hfrom : p.ValueFrom = ""
    · by_cases hval : p.Value = ""
      · rw [proxy_blank _ _ h hfrom hval]
      · rw [proxy_inline _ _ h hfrom hval]
    · cases hfetch : rtc.fetch ⟨oa.Namespace, p.ValueFrom⟩ with
      | error e => rw [proxy_ref_fetch_error _ _ h hfrom hfetch]
      | ok ps =>
        cases hkey : ps.Data.lookup "proxy" with
        | none => exact absurd hkey (hok p ps h hfrom hfetch)
        | some v => rw [proxy_ref_key_present _ _ h hfrom hfetch hkey]

/-! ## Failure of the token secret -/

/-- C1: when the first fetch returns the token secret, or reports not-found and leaves
the empty secret, and that secret lacks the `apiToken` key, the `paasToken` key or both,
`BuildDynatraceClient` returns no client together with the error of `verifySecret`, which
reads `invalid secret <name>, missing token <key>` for the first absent key in the order
of the validation loop, and the trace holds no call of the client constructor. -/
theorem C1_invalid_secret_returns_error {C : Type} (NewClient : NewClientFunc C)
    (rtc : client.Client) (oa : OneAgent) (secret : Secret)
    (hfetch : rtc.fetch (tokensKey oa) = .ok secret
      ∨ ∃ e, rtc.fetch (tokensKey oa) = .error e ∧ errors.IsNotFound (some e) = true
          ∧ secret = {})
    (hmiss : secret.Data.lookup DynatraceApiToken = none
      ∨ secret.Data.lookup DynatracePaasToken = none) :
    (BuildDynatraceClient NewClient rtc oa).client = none
    ∧ (BuildDynatraceClient NewClient rtc oa).err = verifySecret secret
    ∧ verifySecret secret = some (.errorString
        ("invalid secret " ++ secret.Name ++ ", missing token "
          ++ (if secret.Data.lookup DynatracePaasToken = none
              then DynatracePaasToken else DynatraceApiToken)))
    ∧ ∀ ev ∈ (BuildDynatraceClient NewClient rtc oa).trace, ev.isNewClient = false := by
  have hv := verifySecret_missing hmiss
  have hb : BuildDynatraceClient NewClient rtc oa
      = ⟨none, verifySecret secret,
          [Event.Get (tokensKey oa), Event.verifySecret secret]⟩ := by
    rw [hv]
    rcases hfetch with h | ⟨e, h, hnf, hs⟩
    · exact build_invalid NewClient rtc oa secret none _ (Get_ok _ h) (Or.inl rfl) hv
    · subst hs
      exact build_invalid NewClient rtc oa _ (some e) _ (Get_error _ h) (Or.inr hnf) hv
  unfold firstMissing at hv
  refine ⟨by rw [hb], by rw [hb], hv, ?_⟩
  rw [hb]
  exact no_newClient_of_invalid _ _

/-- C1 at a stored secret that lacks `paasToken`. -/
theorem C1_invalid_secret_returns_error_witness :
    ((storeOf [(⟨"dynatrace", "oneagent"⟩, secretNoPaas)]).fetch (tokensKey sampleOneAgent)
        = .ok secretNoPaas
      ∨ ∃ e, (storeOf [(⟨"dynatrace", "oneagent"⟩, secretNoPaas)]).fetch
            (tokensKey sampleOneAgent) = .error e
          ∧ errors.IsNotFound (some e) = true ∧ secretNoPaas = {})
    ∧ (secretNoPaas.Data.lookup DynatraceApiToken = none
      ∨ secretNoPaas.Data.lookup DynatracePaasToken = none)
    ∧ (BuildDynatraceClient echoClient (storeOf [(⟨"dynatrace", "oneagent"⟩, secretNoPaas)])
        sampleOneAgent).client = none
    ∧ (BuildDynatraceClient echoClient (storeOf [(⟨"dynatrace", "oneagent"⟩, secretNoPaas)])
        sampleOneAgent).err = verifySecret secretNoPaas
    ∧ verifySecret secretNoPaas = some (.errorString
        ("invalid secret " ++ secretNoPaas.Name ++ ", missing token "
          ++ (if secretNoPaas.Data.lookup DynatracePaasToken = none
              then DynatracePaasToken else DynatraceApiToken)))
    ∧ ∀ ev ∈ (BuildDynatraceClient echoClient
        (storeOf [(⟨"dynatrace", "oneagent"⟩, secretNoPaas)]) sampleOneAgent).trace,
        ev.isNewClient = false :=
  ⟨Or.inl rfl, Or.inr rfl,
    C1_invalid_secret_returns_error echoClient
      (storeOf [(⟨"dynatrace", "oneagent"⟩, secretNoPaas)]) sampleOneAgent secretNoPaas
      (Or.inl rfl) (Or.inr rfl)⟩

/-- C2: when the fetch of the token secret fails with an error that is not a not-found
error, `BuildDynatraceClient` returns no client and that very error, and its only call is
the one fetch: no validation, no proxy fetch, no constructor call. -/
theorem C2_fetch_error_returned_verbatim {C : Type} (NewClient : NewClientFunc C)
    (rtc : client.Client) (oa : OneAgent) (e : GoError)
    (hfetch : rtc.fetch (tokensKey oa) = .error e)
    (hnf : errors.IsNotFound (some e) = false) :
    BuildDynatraceClient NewClient rtc oa = ⟨none, some e, [Event.Get (tokensKey oa)]⟩ := by
  exact build_fetch_error NewClient rtc oa e hfetch hnf

/-- C2 at a store whose every fetch is refused. -/
theorem C2_fetch_error_returned_verbatim_witness :
    (failingStore (.status "Forbidden" "secrets is forbidden")).fetch (tokensKey sampleOneAgent)
        = .error (.status "Forbidden" "secrets is forbidden")
    ∧ errors.IsNotFound (some (.status "Forbidden" "secrets is forbidden")) = false
    ∧ BuildDynatraceClient echoClient (failingStore (.status "Forbidden" "secrets is forbidden"))
        sampleOneAgent
      = ⟨none, some (.status "Forbidden" "secrets is forbidden"),
          [Event.Get (tokensKey sampleOneAgent)]⟩ :=
  ⟨rfl, by decide,
    C2_fetch_error_returned_verbatim echoClient _ sampleOneAgent _ rfl (by decide)⟩

/-- C3: when the token secret is not found, `BuildDynatraceClient` does not return the
not-found error: it validates the empty secret and returns no client and the
invalid-secret error of `verifySecret`, whatever the proxy and `SkipCertCheck` settings. -/
theorem C3_not_found_fails_validation {C : Type} (NewClient : NewClientFunc C)
    (rtc : client.Client) (oa : OneAgent) (e : GoError)
    (hfetch : rtc.fetch (tokensKey oa) = .error e)
    (hnf : errors.IsNotFound (some e) = true) :
    BuildDynatraceClient NewClient rtc oa
      = ⟨none, verifySecret {}, [Event.Get (tokensKey oa), Event.verifySecret {}]⟩
    ∧ verifySecret {} = some (.errorString "invalid secret , missing token paasToken")
    ∧ (BuildDynatraceClient NewClient rtc oa).err ≠ some e := by
  have hv : verifySecret {} = some (.errorString "invalid secret , missing token paasToken") := by
    decide
  have hb := build_invalid NewClient rtc oa _ _ _ (Get_error {} hfetch) (Or.inr hnf) hv
  refine ⟨by rw [hb, hv], hv, ?_⟩
  rw [hb]
  intro h
  have he : e = .errorString "invalid secret , missing token paasToken" := by
    simpa using h.symm
  rw [he] at hnf
  simp [errors.IsNotFound] at hnf

/-- C3 at an empty store, for an instance with a proxy reference and `SkipCertCheck` set. -/
theorem C3_not_found_fails_validation_witness :
    (storeOf []).fetch (tokensKey { sampleOneAgent with
        Spec := { SkipCertCheck := true, Proxy := some { ValueFrom := "proxy-secret" } } })
      = .error (.status "NotFound" "secrets \"oneagent\" not found")
    ∧ errors.IsNotFound (some (.status "NotFound" "secrets \"oneagent\" not found")) = true
    ∧ BuildDynatraceClient echoClient (storeOf []) { sampleOneAgent with
        Spec := { SkipCertCheck := true, Proxy := some { ValueFrom := "proxy-secret" } } }
      = ⟨none, verifySecret {}, [Event.Get (tokensKey { sampleOneAgent with
          Spec := { SkipCertCheck := true, Proxy := some { ValueFrom := "proxy-secret" } } }),
          Event.verifySecret {}]⟩
    ∧ verifySecret {} = some (.errorString "invalid secret , missing token paasToken")
    ∧ (BuildDynatraceClient echoClient (storeOf []) { sampleOneAgent with
        Spec := { SkipCertCheck := true, Proxy := some { ValueFrom := "proxy-secret" } } }).err
      ≠ some (.status "NotFound" "secrets \"oneagent\" not found") :=
  ⟨rfl, by decide,
    C3_not_found_fails_validation echoClient (storeOf []) _ _ rfl (by decide)⟩

/-! ## The constructed client -/

/-- A returned client comes from the constructor: the token secret was fetched and holds
both required keys, and the client is the one the constructor returned for the instance
URL and the white-space-trimmed values of the two keys. -/
theorem client_only_from_constructor {C : Type} (NewClient : NewClientFunc C)
    (rtc : client.Client) (oa : OneAgent) (c : C)
    (h : (BuildDynatraceClient NewClient rtc oa).client = some c) :
    ∃ secret api paas opts,
      rtc.fetch (tokensKey oa) = .ok secret
      ∧ secret.Data.lookup DynatraceApiToken = some api
      ∧ secret.Data.lookup DynatracePaasToken = some paas
      ∧ NewClient oa.Spec.ApiUrl (strings.TrimSpace api) (strings.TrimSpace paas) opts
          = (some c, (BuildDynatraceClient NewClient rtc oa).err)
      ∧ Event.NewClient oa.Spec.ApiUrl (strings.TrimSpace api) (strings.TrimSpace paas) opts
          ∈ (BuildDynatraceClient NewClient rtc oa).trace := by
  cases hfetch : rtc.fetch (tokensKey oa) with
  | error e =>
    cases hnf : errors.IsNotFound (some e) with
    | false =>
      rw [build_fetch_error NewClient rtc oa e hfetch hnf] at h
      cases h
    | true =>
      have hv : verifySecret {} = some (.errorString "invalid secret , missing token paasToken") := by
        decide
      rw [build_invalid NewClient rtc oa _ _ _ (Get_error {} hfetch) (Or.inr hnf) hv] at h
      cases h
  | ok secret =>
    have hget := Get_ok {} hfetch
    cases ha : secret.Data.lookup DynatraceApiToken with
    | none =>
      rw [build_invalid NewClient rtc oa _ _ _ hget (Or.inl rfl)
        (verifySecret_missing (Or.inl ha))] at h
      cases h
    | some api =>
      cases hp : secret.Data.lookup DynatracePaasToken with
      | none =>
        rw [build_invalid NewClient rtc oa _ _ _ hget (Or.inl rfl)
          (verifySecret_missing (Or.inr hp))] at h
        cases h
      | some paas =>
        have hb := build_valid NewClient rtc oa secret api paas hfetch ha hp
        rcases hblock : BuildDynatraceClient.proxy rtc oa (certOpts oa)
          [Event.Get (tokensKey oa), Event.verifySecret secret] with ⟨err, opts, tr⟩
        rw [hblock] at hb
        cases err with
        | some err =>
          rw [hb] at h
          cases h
        | none =>
          simp only at hb
          rw [hb] at h ⊢
          simp only at h
          exact ⟨secret, api, paas, opts, rfl, ha, hp, Prod.ext h rfl, by simp⟩

/-- The sample constructor `strictClient` refuses an empty token. -/
theorem strictClient_refuses : RefusesEmptyToken strictClient := by
  intro url apiToken paasToken opts h
  simp [strictClient, h]

/-- The emptiness check is the part of the constructor: `BuildDynatraceClient` trims the
white-space-only `apiToken` of the secret to the empty string and calls the constructor
with it, and the constructor refuses. -/
theorem blank_token_refused_by_constructor :
    BuildDynatraceClient strictClient (storeOf [(⟨"dynatrace", "oneagent"⟩, secretBlankApi)])
        sampleOneAgent
      = ⟨none, some (.errorString "token is empty"),
          [Event.Get ⟨"dynatrace", "oneagent"⟩, Event.verifySecret secretBlankApi,
           Event.extractToken secretBlankApi "apiToken",
           Event.extractToken secretBlankApi "paasToken",
           Event.NewClient "https://ENVIRONMENTID.live.dynatrace.com/api" "" "xyz789" []]⟩ := by
  decide

/-- C4: with a client constructor that refuses an empty token, `BuildDynatraceClient`
returns a client only if the token secret was fetched, holds both required keys, and both
values are non-empty after white-space trimming; a token secret in which `apiToken` or
`paasToken` is present with an empty or white-space-only value never yields a client. -/
theorem C4_client_only_with_nonempty_tokens {C : Type} (NewClient : NewClientFunc C)
    (hrefuse : RefusesEmptyToken NewClient) (rtc : client.Client) (oa : OneAgent) :
    (∀ c, (BuildDynatraceClient NewClient rtc oa).client = some c →
      ∃ secret api paas,
        rtc.fetch (tokensKey oa) = .ok secret
        ∧ secret.Data.lookup DynatraceApiToken = some api
        ∧ secret.Data.lookup DynatracePaasToken = some paas
        ∧ strings.TrimSpace api ≠ "" ∧ strings.TrimSpace paas ≠ "")
    ∧ (∀ secret value, rtc.fetch (tokensKey oa) = .ok secret →
        (secret.Data.lookup DynatraceApiToken = some value
          ∨ secret.Data.lookup DynatracePaasToken = some value) →
        strings.TrimSpace value = "" →
        (BuildDynatraceClient NewClient rtc oa).client = none) := by
  have hfirst : ∀ c, (BuildDynatraceClient NewClient rtc oa).client = some c →
      ∃ secret api paas,
        rtc.fetch (tokensKey oa) = .ok secret
        ∧ secret.Data.lookup DynatraceApiToken = some api
        ∧ secret.Data.lookup DynatracePaasToken = some paas
        ∧ strings.TrimSpace api ≠ "" ∧ strings.TrimSpace paas ≠ "" := by
    intro c hc
    obtain ⟨secret, api, paas, opts, hfetch, ha, hp, hnew, -⟩ :=
      client_only_from_constructor NewClient rtc oa c hc
    have hsome : (NewClient oa.Spec.ApiUrl (strings.TrimSpace api) (strings.TrimSpace paas)
        opts).1 = some c := by rw [hnew]
    refine ⟨secret, api, paas, hfetch, ha, hp, ?_, ?_⟩
    · intro hempty
      rw [hrefuse _ _ _ _ (Or.inl hempty)] at hsome
      cases hsome
    · intro hempty
      rw [hrefuse _ _ _ _ (Or.inr hempty)] at hsome
      cases hsome
  refine ⟨hfirst, ?_⟩
  intro secret value hfetch hkey hblank
  cases hc : (BuildDynatraceClient NewClient rtc oa).client with
  | none => rfl
  | some c =>
    obtain ⟨secret2, api, paas, hfetch2, ha, hp, hane, hpne⟩ := hfirst c hc
    rw [hfetch] at hfetch2
    injection hfetch2 with hsec
    subst hsec
    rcases hkey with hk | hk
    · rw [hk] at ha
      injection ha with hv
      subst hv
      exact absurd hblank hane
    · rw [hk] at hp
      injection hp with hv
      subst hv
      exact absurd hblank hpne

/-- C4 at the sample secret and a constructor that refuses an empty token: the run
returns a client, and both trimmed tokens are non-empty. -/
theorem C4_client_only_with_nonempty_tokens_witness :
    RefusesEmptyToken strictClient
    ∧ (BuildDynatraceClient strictClient (storeOf [(⟨"dynatrace", "oneagent"⟩, sampleSecret)])
        sampleOneAgent).client
      = some ("https://ENVIRONMENTID.live.dynatrace.com/api", "abc123", "xyz789", [])
    ∧ (∀ c, (BuildDynatraceClient strictClient
          (storeOf [(⟨"dynatrace", "oneagent"⟩, sampleSecret)]) sampleOneAgent).client = some c →
      ∃ secret api paas,
        (storeOf [(⟨"dynatrace", "oneagent"⟩, sampleSecret)]).fetch (tokensKey sampleOneAgent)
          = .ok secret
        ∧ secret.Data.lookup DynatraceApiToken = some api
        ∧ secret.Data.lookup DynatracePaasToken = some paas
        ∧ strings.TrimSpace api ≠ "" ∧ strings.TrimSpace paas ≠ "")
    ∧ (∀ secret value,
        (storeOf [(⟨"dynatrace", "oneagent"⟩, sampleSecret)]).fetch (tokensKey sampleOneAgent)
          = .ok secret →
        (secret.Data.lookup DynatraceApiToken = some value
          ∨ secret.Data.lookup DynatracePaasToken = some value) →
        strings.TrimSpace value = "" →
        (BuildDynatraceClient strictClient
          (storeOf [(⟨"dynatrace", "oneagent"⟩, sampleSecret)]) sampleOneAgent).client = none) :=
  ⟨strictClient_refuses, by decide,
    C4_client_only_with_nonempty_tokens strictClient strictClient_refuses
      (storeOf [(⟨"dynatrace", "oneagent"⟩, sampleSecret)]) sampleOneAgent⟩

/-- C5: when the token secret is fetched and holds both required keys, and no referenced
proxy secret is fetched without its `proxy` key, the pair returned by `BuildDynatraceClient`
is the pair returned by the constructor for the instance `ApiUrl`, the trimmed `apiToken`
value, the trimmed `paasToken` value, in that order, and the options left by the proxy
block; the constructor call is the last recorded call. -/
theorem C5_result_is_constructor_result {C : Type} (NewClient : NewClientFunc C)
    (rtc : client.Client) (oa : OneAgent) (secret : Secret) (api paas : String)
    (hfetch : rtc.fetch (tokensKey oa) = .ok secret)
    (ha : secret.Data.lookup DynatraceApiToken = some api)
    (hp : secret.Data.lookup DynatracePaasToken = some paas)
    (hproxy : ∀ p ps, oa.Spec.Proxy = some p → p.ValueFrom ≠ "" →
      rtc.fetch ⟨oa.Namespace, p.ValueFrom⟩ = .ok ps → ps.Data.lookup "proxy" ≠ none) :
    ((BuildDynatraceClient NewClient rtc oa).client, (BuildDynatraceClient NewClient rtc oa).err)
      = NewClient oa.Spec.ApiUrl (strings.TrimSpace api) (strings.TrimSpace paas)
          (BuildDynatraceClient.proxy rtc oa (certOpts oa)
            [Event.Get (tokensKey oa), Event.verifySecret secret]).2.1
    ∧ (BuildDynatraceClient NewClient rtc oa).trace
      = (BuildDynatraceClient.proxy rtc oa (certOpts oa)
            [Event.Get (tokensKey oa), Event.verifySecret secret]).2.2
        ++ [Event.extractToken secret DynatraceApiToken,
            Event.extractToken secret DynatracePaasToken,
            Event.NewClient oa.Spec.ApiUrl (strings.TrimSpace api) (strings.TrimSpace paas)
              (BuildDynatraceClient.proxy rtc oa (certOpts oa)
                [Event.Get (tokensKey oa), Event.verifySecret secret]).2.1] := by
  have hb := build_valid NewClient rtc oa secret api paas hfetch ha hp
  have hnone := proxy_err_none_of_not_fatal (certOpts oa)
    [Event.Get (tokensKey oa), Event.verifySecret secret] hproxy
  rcases hblock : BuildDynatraceClient.proxy rtc oa (certOpts oa)
    [Event.Get (tokensKey oa), Event.verifySecret secret] with ⟨err, opts, tr⟩
  rw [hblock] at hb hnone
  simp only at hnone
  subst hnone
  simp only at hb
  rw [hb]
  exact ⟨rfl, rfl⟩

/-- C5 at the sample secret: the tokens passed on are `abc123` and `xyz789`, with no
options. -/
theorem C5_result_is_constructor_result_witness :
    (storeOf [(⟨"dynatrace", "oneagent"⟩, sampleSecret)]).fetch (tokensKey sampleOneAgent)
      = .ok sampleSecret
    ∧ sampleSecret.Data.lookup DynatraceApiToken = some " abc123\n"
    ∧ sampleSecret.Data.lookup DynatracePaasToken = some "xyz789"
    ∧ ((BuildDynatraceClient echoClient (storeOf [(⟨"dynatrace", "oneagent"⟩, sampleSecret)])
          sampleOneAgent).client,
       (BuildDynatraceClient echoClient (storeOf [(⟨"dynatrace", "oneagent"⟩, sampleSecret)])
          sampleOneAgent).err)
      = echoClient "https://ENVIRONMENTID.live.dynatrace.com/api" "abc123" "xyz789" []
    ∧ (BuildDynatraceClient echoClient (storeOf [(⟨"dynatrace", "oneagent"⟩, sampleSecret)])
          sampleOneAgent).trace
      = [Event.Get ⟨"dynatrace", "oneagent"⟩, Event.verifySecret sampleSecret]
        ++ [Event.extractToken sampleSecret "apiToken",
            Event.extractToken sampleSecret "paasToken",
            Event.NewClient "https://ENVIRONMENTID.live.dynatrace.com/api" "abc123" "xyz789"
              []] :=
  ⟨rfl, rfl, rfl,
    C5_result_is_constructor_result echoClient
      (storeOf [(⟨"dynatrace", "oneagent"⟩, sampleSecret)]) sampleOneAgent sampleSecret
      " abc123\n" "xyz789" rfl rfl rfl (fun _ _ h => by cases h)⟩

/-! ## The options passed to the constructor -/

/-- Every outcome of `BuildDynatraceClient` is either a failure whose trace holds no
constructor call, or the result of the constructor on the trimmed tokens and on the
certificate options followed by at most one proxy option. -/
theorem build_cases {C : Type} (NewClient : NewClientFunc C) (rtc : client.Client)
    (oa : OneAgent) :
    (∃ e tr, BuildDynatraceClient NewClient rtc oa = ⟨none, some e, tr⟩
        ∧ ∀ ev ∈ tr, ev.isNewClient = false)
    ∨ ∃ secret api paas popts tr,
        rtc.fetch (tokensKey oa) = .ok secret
        ∧ secret.Data.lookup DynatraceApiToken = some api
        ∧ secret.Data.lookup DynatracePaasToken = some paas
        ∧ (popts = [] ∨ ∃ url, popts = [.Proxy url])
        ∧ (oa.Spec.Proxy = none → popts = [])
        ∧ (∀ ev ∈ tr, ev.isNewClient = false)
        ∧ BuildDynatraceClient NewClient rtc oa
          = ⟨(NewClient oa.Spec.ApiUrl (strings.TrimSpace api) (strings.TrimSpace paas)
                (certOpts oa ++ popts)).1,
             (NewClient oa.Spec.ApiUrl (strings.TrimSpace api) (strings.TrimSpace paas)
                (certOpts oa ++ popts)).2,
             tr ++ [Event.NewClient oa.Spec.ApiUrl (strings.TrimSpace api)
                (strings.TrimSpace paas) (certOpts oa ++ popts)]⟩ := by
  have invalid : ∀ (s : Secret) (err : Option GoError), rtc.Get (tokensKey oa) {} = (s, err) →
      (err = none ∨ errors.IsNotFound err = true) →
      (s.Data.lookup DynatraceApiToken = none ∨ s.Data.lookup DynatracePaasToken = none) →
      ∃ e tr, BuildDynatraceClient NewClient rtc oa = ⟨none, some e, tr⟩
        ∧ ∀ ev ∈ tr, ev.isNewClient = false := fun s err hget hgo hmiss =>
    ⟨_, _, build_invalid NewClient rtc oa s err _ hget hgo (verifySecret_missing hmiss),
      no_newClient_of_invalid _ _⟩
  cases hfetch : rtc.fetch (tokensKey oa) with
  | error e =>
    cases hnf : errors.IsNotFound (some e) with
    | false =>
      exact Or.inl ⟨e, _, build_fetch_error NewClient rtc oa e hfetch hnf, by
        simp [Event.isNewClient]⟩
    | true =>
      exact Or.inl (invalid {} _ (Get_error {} hfetch) (Or.inr hnf) (Or.inl rfl))
  | ok secret =>
    cases ha : secret.Data.lookup DynatraceApiToken with
    | none => exact Or.inl (invalid secret _ (Get_ok {} hfetch) (Or.inl rfl) (Or.inl ha))
    | some api =>
      cases hp : secret.Data.lookup DynatracePaasToken with
      | none => exact Or.inl (invalid secret _ (Get_ok {} hfetch) (Or.inl rfl) (Or.inr hp))
      | some paas =>
        have hb := build_valid NewClient rtc oa secret api paas hfetch ha hp
        obtain ⟨err, popts, ptr, hblock, hshape, hnoproxy, hptr⟩ := proxy_shape rtc oa
          (certOpts oa) [Event.Get (tokensKey oa), Event.verifySecret secret]
        rw [hblock] at hb
        cases err with
        | some err =>
          refine Or.inl ⟨err, _, hb, ?_⟩
          intro ev hev
          simp only [List.mem_append, List.mem_cons, List.mem_singleton, List.not_mem_nil,
            or_false] at hev
          rcases hev with (rfl | rfl) | hev
          · rfl
          · rfl
          · exact hptr ev hev
        | none =>
          refine Or.inr ⟨secret, api, paas, popts,
            [Event.Get (tokensKey oa), Event.verifySecret secret] ++ ptr
              ++ [Event.extractToken secret DynatraceApiToken,
                  Event.extractToken secret DynatracePaasToken],
            rfl, ha, hp, hshape, hnoproxy, ?_, ?_⟩
          · intro ev hev
            simp only [List.mem_append, List.mem_cons, List.mem_singleton, List.not_mem_nil,
              or_false] at hev
            rcases hev with ((rfl | rfl) | hev) | (rfl | rfl)
            · rfl
            · rfl
            · exact hptr ev hev
            · rfl
            · rfl
          · rw [hb]
            simp

/-- The options of a recorded constructor call are the certificate options followed by
at most one proxy option. -/
theorem newClient_opts_shape {C : Type} (NewClient : NewClientFunc C) (rtc : client.Client)
    (oa : OneAgent) (url apiToken paasToken : String) (opts : List dtclient.Option)
    (h : Event.NewClient url apiToken paasToken opts
      ∈ (BuildDynatraceClient NewClient rtc oa).trace) :
    ∃ popts, opts = certOpts oa ++ popts ∧ (popts = [] ∨ ∃ purl, popts = [.Proxy purl])
      ∧ (oa.Spec.Proxy = none → popts = []) := by
  rcases build_cases NewClient rtc oa with ⟨e, tr, hb, htr⟩
    | ⟨secret, api, paas, popts, tr, -, -, -, hshape, hnoproxy, htr, hb⟩
  · rw [hb] at h
    have := htr _ h
    simp [Event.isNewClient] at this
  · rw [hb] at h
    simp only [List.mem_append, List.mem_singleton] at h
    rcases h with h | h
    · have := htr _ h
      simp [Event.isNewClient] at this
    · injection h with _ _ _ hopts
      exact ⟨popts, hopts, hshape, hnoproxy⟩

/-- C6: in every run that reaches the client constructor, the options passed to it hold
`SkipCertificateValidation(true)` exactly when `SkipCertCheck` is set and no other
certificate-skip option, hold at most one proxy option, and hold every certificate-skip
option before every proxy option; with `SkipCertCheck` unset and no proxy configuration
the options are empty. -/
theorem C6_options_passed_to_constructor {C : Type} (NewClient : NewClientFunc C)
    (rtc : client.Client) (oa : OneAgent) (url apiToken paasToken : String)
    (opts : List dtclient.Option)
    (h : Event.NewClient url apiToken paasToken opts
      ∈ (BuildDynatraceClient NewClient rtc oa).trace) :
    (dtclient.Option.SkipCertificateValidation true ∈ opts ↔ oa.Spec.SkipCertCheck = true)
    ∧ (∀ skip, dtclient.Option.SkipCertificateValidation skip ∈ opts → skip = true)
    ∧ (opts.filter dtclient.Option.isProxy).length ≤ 1
    ∧ (∀ (i j : Nat) (skip : Bool) (purl : String),
        opts[i]? = some (dtclient.Option.SkipCertificateValidation skip) →
        opts[j]? = some (dtclient.Option.Proxy purl) → i < j)
    ∧ (oa.Spec.SkipCertCheck = false → oa.Spec.Proxy = none → opts = []) := by
  obtain ⟨popts, hopts, hshape, hnoproxy⟩ :=
    newClient_opts_shape NewClient rtc oa url apiToken paasToken opts h
  subst hopts
  refine ⟨?_, ?_, ?_, ?_, ?_⟩
  · cases hskip : oa.Spec.SkipCertCheck <;> rcases hshape with rfl | ⟨purl, rfl⟩ <;>
      simp [certOpts, hskip]
  · intro skip
    cases hskip : oa.Spec.SkipCertCheck <;> rcases hshape with rfl | ⟨purl, rfl⟩ <;>
      simp [certOpts, hskip]
  · cases hskip : oa.Spec.SkipCertCheck <;> rcases hshape with rfl | ⟨purl, rfl⟩ <;>
      simp [certOpts, hskip, dtclient.Option.isProxy]
  · intro i j skip purl
    cases hskip : oa.Spec.SkipCertCheck <;> rcases hshape with rfl | ⟨purl2, rfl⟩ <;>
      simp only [certOpts, hskip, List.append_nil, List.nil_append, List.singleton_append,
        Bool.false_eq_true, if_false, if_true]
    · simp
    · intro h1
      cases i with
      | zero => simp at h1
      | succ i => simp at h1
    · intro _ h2
      cases j with
      | zero => simp at h2
      | succ j => simp at h2
    · intro h1 h2
      cases i with
      | zero =>
        cases j with
        | zero => simp at h2
        | succ j => exact Nat.succ_pos j
      | succ i =>
        cases i with
        | zero => simp at h1
        | succ i => simp at h1
  · intro hskip hproxy
    simp [certOpts, hskip, hnoproxy hproxy]

/-- C6 at an instance with `SkipCertCheck` set and a stored proxy secret. -/
theorem C6_options_passed_to_constructor_witness :
    Event.NewClient "https://ENVIRONMENTID.live.dynatrace.com/api" "abc123" "xyz789"
        [.SkipCertificateValidation true, .Proxy "http://proxy.example:3128"]
      ∈ (BuildDynatraceClient echoClient
          (storeOf [(⟨"dynatrace", "oneagent"⟩, sampleSecret),
                    (⟨"dynatrace", "proxy-secret"⟩, sampleProxySecret)]) proxiedOneAgent).trace
    ∧ (dtclient.Option.SkipCertificateValidation true
          ∈ [dtclient.Option.SkipCertificateValidation true,
              .Proxy "http://proxy.example:3128"]
        ↔ proxiedOneAgent.Spec.SkipCertCheck = true)
    ∧ (∀ skip, dtclient.Option.SkipCertificateValidation skip
          ∈ [dtclient.Option.SkipCertificateValidation true,
              .Proxy "http://proxy.example:3128"] → skip = true)
    ∧ ([dtclient.Option.SkipCertificateValidation true,
          .Proxy "http://proxy.example:3128"].filter dtclient.Option.isProxy).length ≤ 1
    ∧ (∀ (i j : Nat) (skip : Bool) (purl : String),
        [dtclient.Option.SkipCertificateValidation true,
          .Proxy "http://proxy.example:3128"][i]?
          = some (dtclient.Option.SkipCertificateValidation skip) →
        [dtclient.Option.SkipCertificateValidation true,
          .Proxy "http://proxy.example:3128"][j]? = some (dtclient.Option.Proxy purl) → i < j)
    ∧ (proxiedOneAgent.Spec.SkipCertCheck = false → proxiedOneAgent.Spec.Proxy = none →
        [dtclient.Option.SkipCertificateValidation true,
          .Proxy "http://proxy.example:3128"] = []) :=
  ⟨by decide,
    C6_options_passed_to_constructor echoClient
      (storeOf [(⟨"dynatrace", "oneagent"⟩, sampleSecret),
                (⟨"dynatrace", "proxy-secret"⟩, sampleProxySecret)]) proxiedOneAgent
      "https://ENVIRONMENTID.live.dynatrace.com/api" "abc123" "xyz789"
      [.SkipCertificateValidation true, .Proxy "http://proxy.example:3128"] (by decide)⟩

/-! ## The proxy secret reference -/

/-- The outcome when the token secret is valid and the proxy block does not fail: the
constructor is called on the trimmed tokens with the options left by the block. -/
theorem build_valid_of_block {C : Type} (NewClient : NewClientFunc C) (rtc : client.Client)
    (oa : OneAgent) (s : Secret) (api paas : String) (opts : List dtclient.Option)
    (tr : List Event)
    (hs : rtc.fetch (tokensKey oa) = .ok s)
    (ha : s.Data.lookup DynatraceApiToken = some api)
    (hp : s.Data.lookup DynatracePaasToken = some paas)
    (hblock : BuildDynatraceClient.proxy rtc oa (certOpts oa)
      [Event.Get (tokensKey oa), Event.verifySecret s] = (none, opts, tr)) :
    BuildDynatraceClient NewClient rtc oa
      = ⟨(NewClient oa.Spec.ApiUrl (strings.TrimSpace api) (strings.TrimSpace paas) opts).1,
         (NewClient oa.Spec.ApiUrl (strings.TrimSpace api) (strings.TrimSpace paas) opts).2,
         tr ++ [Event.extractToken s DynatraceApiToken,
                Event.extractToken s DynatracePaasToken,
                Event.NewClient oa.Spec.ApiUrl (strings.TrimSpace api)
                  (strings.TrimSpace paas) opts]⟩ := by
  rw [build_valid NewClient rtc oa s api paas hs ha hp, hblock]

/-- C7: with a valid token secret and a proxy secret reference whose fetch fails with
any error, not-found included, `BuildDynatraceClient` returns the result of the
constructor, called with the certificate options only; these hold no proxy option, and
the failed fetch is only logged. -/
theorem C7_proxy_fetch_failure_tolerated {C : Type} (NewClient : NewClientFunc C)
    (rtc : client.Client) (oa : OneAgent) (secret : Secret) (api paas : String)
    (p : OneAgentProxy) (e : GoError)
    (hfetch : rtc.fetch (tokensKey oa) = .ok secret)
    (ha : secret.Data.lookup DynatraceApiToken = some api)
    (hp : secret.Data.lookup DynatracePaasToken = some paas)
    (hproxy : oa.Spec.Proxy = some p) (hfrom : p.ValueFrom ≠ "")
    (hpfetch : rtc.fetch ⟨oa.Namespace, p.ValueFrom⟩ = .error e) :
    BuildDynatraceClient NewClient rtc oa
      = ⟨(NewClient oa.Spec.ApiUrl (strings.TrimSpace api) (strings.TrimSpace paas)
            (certOpts oa)).1,
         (NewClient oa.Spec.ApiUrl (strings.TrimSpace api) (strings.TrimSpace paas)
            (certOpts oa)).2,
         [Event.Get (tokensKey oa), Event.verifySecret secret,
          Event.Get ⟨oa.Namespace, p.ValueFrom⟩,
          Event.Info "Failed to get proxy field within proxy secret!",
          Event.extractToken secret DynatraceApiToken,
          Event.extractToken secret DynatracePaasToken,
          Event.NewClient oa.Spec.ApiUrl (strings.TrimSpace api) (strings.TrimSpace paas)
            (certOpts oa)]⟩
    ∧ ∀ o ∈ certOpts oa, o.isProxy = false := by
  constructor
  · rw [build_valid_of_block NewClient rtc oa secret api paas _ _ hfetch ha hp
      (proxy_ref_fetch_error _ _ hproxy hfrom hpfetch)]
    simp [proxyFetchFailed]
  · intro o ho
    cases hskip : oa.Spec.SkipCertCheck <;> simp [certOpts, hskip] at ho
    subst ho
    rfl

/-- C7 at a store that holds the token secret but not the referenced proxy secret. -/
theorem C7_proxy_fetch_failure_tolerated_witness :
    (storeOf [(⟨"dynatrace", "oneagent"⟩, sampleSecret)]).fetch (tokensKey proxiedOneAgent)
      = .ok sampleSecret
    ∧ sampleSecret.Data.lookup DynatraceApiToken = some " abc123\n"
    ∧ sampleSecret.Data.lookup DynatracePaasToken = some "xyz789"
    ∧ proxiedOneAgent.Spec.Proxy
      = some { Value := "http://inline.example:8080", ValueFrom := "proxy-secret" }
    ∧ "proxy-secret" ≠ ""
    ∧ (storeOf [(⟨"dynatrace", "oneagent"⟩, sampleSecret)]).fetch ⟨"dynatrace", "proxy-secret"⟩
      = .error (.status "NotFound" "secrets \"proxy-secret\" not found")
    ∧ BuildDynatraceClient echoClient (storeOf [(⟨"dynatrace", "oneagent"⟩, sampleSecret)])
        proxiedOneAgent
      = ⟨some ("https://ENVIRONMENTID.live.dynatrace.com/api", "abc123", "xyz789",
            [.SkipCertificateValidation true]), none,
         [Event.Get ⟨"dynatrace", "oneagent"⟩, Event.verifySecret sampleSecret,
          Event.Get ⟨"dynatrace", "proxy-secret"⟩,
          Event.Info "Failed to get proxy field within proxy secret!",
          Event.extractToken sampleSecret "apiToken",
          Event.extractToken sampleSecret "paasToken",
          Event.NewClient "https://ENVIRONMENTID.live.dynatrace.com/api" "abc123" "xyz789"
            [.SkipCertificateValidation true]]⟩
    ∧ ∀ o ∈ certOpts proxiedOneAgent, o.isProxy = false :=
  ⟨rfl, rfl, rfl, rfl, by decide, rfl,
    C7_proxy_fetch_failure_tolerated echoClient
      (storeOf [(⟨"dynatrace", "oneagent"⟩, sampleSecret)]) proxiedOneAgent sampleSecret
      " abc123\n" "xyz789" { Value := "http://inline.example:8080", ValueFrom := "proxy-secret" }
      (.status "NotFound" "secrets \"proxy-secret\" not found") rfl rfl rfl rfl (by decide) rfl⟩

/-- C8: with a valid token secret and a proxy secret reference whose secret is fetched
but lacks the key `proxy`, `BuildDynatraceClient` returns no client and the missing-key
error for `proxy` as `extractToken` built it, and the constructor is not called. -/
theorem C8_proxy_key_missing_is_fatal {C : Type} (NewClient : NewClientFunc C)
    (rtc : client.Client) (oa : OneAgent) (secret : Secret) (api paas : String)
    (p : OneAgentProxy) (proxySecret : Secret)
    (hfetch : rtc.fetch (tokensKey oa) = .ok secret)
    (ha : secret.Data.lookup DynatraceApiToken = some api)
    (hp : secret.Data.lookup DynatracePaasToken = some paas)
    (hproxy : oa.Spec.Proxy = some p) (hfrom : p.ValueFrom ≠ "")
    (hpfetch : rtc.fetch ⟨oa.Namespace, p.ValueFrom⟩ = .ok proxySecret)
    (hkey : proxySecret.Data.lookup "proxy" = none) :
    BuildDynatraceClient NewClient rtc oa
      = ⟨none, some (.errorString "missing token proxy"),
         [Event.Get (tokensKey oa), Event.verifySecret secret,
          Event.Get ⟨oa.Namespace, p.ValueFrom⟩,
          Event.extractToken proxySecret "proxy"]⟩
    ∧ (BuildDynatraceClient NewClient rtc oa).err = (extractToken proxySecret "proxy").2
    ∧ ∀ ev ∈ (BuildDynatraceClient NewClient rtc oa).trace, ev.isNewClient = false := by
  have hb : BuildDynatraceClient NewClient rtc oa
      = ⟨none, some (.errorString "missing token proxy"),
         [Event.Get (tokensKey oa), Event.verifySecret secret,
          Event.Get ⟨oa.Namespace, p.ValueFrom⟩,
          Event.extractToken proxySecret "proxy"]⟩ := by
    rw [build_valid NewClient rtc oa secret api paas hfetch ha hp,
      proxy_ref_key_absent _ _ hproxy hfrom hpfetch hkey]
    simp
  have hm : "missing token " ++ "proxy" = "missing token proxy" := by decide
  refine ⟨hb, by rw [hb, extractToken_absent hkey, hm], ?_⟩
  rw [hb]
  intro ev hev
  simp only [List.mem_cons, List.mem_singleton, List.not_mem_nil, or_false] at hev
  rcases hev with rfl | rfl | rfl | rfl <;> rfl

/-- C8 at a stored proxy secret that has no `proxy` key. -/
theorem C8_proxy_key_missing_is_fatal_witness :
    (storeOf [(⟨"dynatrace", "oneagent"⟩, sampleSecret),
              (⟨"dynatrace", "proxy-secret"⟩, secretNoProxyKey)]).fetch
        (tokensKey proxiedOneAgent) = .ok sampleSecret
    ∧ sampleSecret.Data.lookup DynatraceApiToken = some " abc123\n"
    ∧ sampleSecret.Data.lookup DynatracePaasToken = some "xyz789"
    ∧ proxiedOneAgent.Spec.Proxy
      = some { Value := "http://inline.example:8080", ValueFrom := "proxy-secret" }
    ∧ "proxy-secret" ≠ ""
    ∧ (storeOf [(⟨"dynatrace", "oneagent"⟩, sampleSecret),
              (⟨"dynatrace", "proxy-secret"⟩, secretNoProxyKey)]).fetch
        ⟨"dynatrace", "proxy-secret"⟩ = .ok secretNoProxyKey
    ∧ secretNoProxyKey.Data.lookup "proxy" = none
    ∧ BuildDynatraceClient echoClient
        (storeOf [(⟨"dynatrace", "oneagent"⟩, sampleSecret),
                  (⟨"dynatrace", "proxy-secret"⟩, secretNoProxyKey)]) proxiedOneAgent
      = ⟨none, some (.errorString "missing token proxy"),
         [Event.Get ⟨"dynatrace", "oneagent"⟩, Event.verifySecret sampleSecret,
          Event.Get ⟨"dynatrace", "proxy-secret"⟩,
          Event.extractToken secretNoProxyKey "proxy"]⟩
    ∧ (BuildDynatraceClient echoClient
        (storeOf [(⟨"dynatrace", "oneagent"⟩, sampleSecret),
                  (⟨"dynatrace", "proxy-secret"⟩, secretNoProxyKey)]) proxiedOneAgent).err
      = (extractToken secretNoProxyKey "proxy").2
    ∧ ∀ ev ∈ (BuildDynatraceClient echoClient
        (storeOf [(⟨"dynatrace", "oneagent"⟩, sampleSecret),
                  (⟨"dynatrace", "proxy-secret"⟩, secretNoProxyKey)]) proxiedOneAgent).trace,
        ev.isNewClient = false :=
  ⟨rfl, rfl, rfl, rfl, by decide, rfl, rfl,
    C8_proxy_key_missing_is_fatal echoClient
      (storeOf [(⟨"dynatrace", "oneagent"⟩, sampleSecret),
                (⟨"dynatrace", "proxy-secret"⟩, secretNoProxyKey)]) proxiedOneAgent sampleSecret
      " abc123\n" "xyz789" { Value := "http://inline.example:8080", ValueFrom := "proxy-secret" }
      secretNoProxyKey rfl rfl rfl rfl (by decide) rfl rfl⟩

/-- With a secret reference set, the proxy block does not depend on the inline value. -/
theorem proxy_ignores_inline_value (rtc : client.Client) (oa : OneAgent) (p : OneAgentProxy)
    (value : String) (opts : List dtclient.Option) (tr : List Event)
    (hproxy : oa.Spec.Proxy = some p) (hfrom : p.ValueFrom ≠ "") :
    BuildDynatraceClient.proxy rtc
        { oa with Spec := { oa.Spec with Proxy := some { p with Value := value } } } opts tr
      = BuildDynatraceClient.proxy rtc oa opts tr := by
  simp [BuildDynatraceClient.proxy, hproxy, hfrom]

/-- C9: two instances that differ only in the inline proxy `Value`, both with the same
non-empty `ValueFrom`, give the same outcome on every store: the same returned pair and
the same recorded calls, constructor arguments and options included. -/
theorem C9_secret_reference_takes_precedence {C : Type} (NewClient : NewClientFunc C)
    (rtc : client.Client) (oa : OneAgent) (p : OneAgentProxy) (value : String)
    (hproxy : oa.Spec.Proxy = some p) (hfrom : p.ValueFrom ≠ "") :
    BuildDynatraceClient NewClient rtc
        { oa with Spec := { oa.Spec with Proxy := some { p with Value := value } } }
      = BuildDynatraceClient NewClient rtc oa := by
  have hblock := fun opts tr => proxy_ignores_inline_value rtc oa p value opts tr hproxy hfrom
  unfold BuildDynatraceClient
  simp only [hblock]
  rfl

/-- C9 at a store without the referenced proxy secret: the inline value is not used as
a fallback, whatever it is. -/
theorem C9_secret_reference_takes_precedence_witness :
    proxiedOneAgent.Spec.Proxy
      = some { Value := "http://inline.example:8080", ValueFrom := "proxy-secret" }
    ∧ "proxy-secret" ≠ ""
    ∧ BuildDynatraceClient echoClient (storeOf [(⟨"dynatrace", "oneagent"⟩, sampleSecret)])
        { proxiedOneAgent with
          Spec := { proxiedOneAgent.Spec with
            Proxy := some { Value := "", ValueFrom := "proxy-secret" } } }
      = BuildDynatraceClient echoClient (storeOf [(⟨"dynatrace", "oneagent"⟩, sampleSecret)])
          proxiedOneAgent :=
  ⟨rfl, by decide,
    C9_secret_reference_takes_precedence echoClient
      (storeOf [(⟨"dynatrace", "oneagent"⟩, sampleSecret)]) proxiedOneAgent
      { Value := "http://inline.example:8080", ValueFrom := "proxy-secret" } "" rfl
      (by decide)⟩

/-- C10: with a valid token secret and a proxy secret reference whose secret, fetched
under the name `ValueFrom` in the namespace of the instance, holds the key `proxy`, the
constructor is called with the certificate options followed by one proxy option, whose
URL is the trimmed value stored under `proxy`; that option is the only proxy option. -/
theorem C10_proxy_from_secret {C : Type} (NewClient : NewClientFunc C)
    (rtc : client.Client) (oa : OneAgent) (secret : Secret) (api paas : String)
    (p : OneAgentProxy) (proxySecret : Secret) (value : String)
    (hfetch : rtc.fetch (tokensKey oa) = .ok secret)
    (ha : secret.Data.lookup DynatraceApiToken = some api)
    (hp : secret.Data.lookup DynatracePaasToken = some paas)
    (hproxy : oa.Spec.Proxy = some p) (hfrom : p.ValueFrom ≠ "")
    (hpfetch : rtc.fetch ⟨oa.Namespace, p.ValueFrom⟩ = .ok proxySecret)
    (hkey : proxySecret.Data.lookup "proxy" = some value) :
    BuildDynatraceClient NewClient rtc oa
      = ⟨(NewClient oa.Spec.ApiUrl (strings.TrimSpace api) (strings.TrimSpace paas)
            (certOpts oa ++ [.Proxy (strings.TrimSpace value)])).1,
         (NewClient oa.Spec.ApiUrl (strings.TrimSpace api) (strings.TrimSpace paas)
            (certOpts oa ++ [.Proxy (strings.TrimSpace value)])).2,
         [Event.Get (tokensKey oa), Event.verifySecret secret,
          Event.Get ⟨oa.Namespace, p.ValueFrom⟩,
          Event.extractToken proxySecret "proxy",
          Event.extractToken secret DynatraceApiToken,
          Event.extractToken secret DynatracePaasToken,
          Event.NewClient oa.Spec.ApiUrl (strings.TrimSpace api) (strings.TrimSpace paas)
            (certOpts oa ++ [.Proxy (strings.TrimSpace value)])]⟩
    ∧ (certOpts oa ++ [dtclient.Option.Proxy (strings.TrimSpace value)]).filter
          dtclient.Option.isProxy
        = [.Proxy (strings.TrimSpace value)] := by
  constructor
  · rw [build_valid_of_block NewClient rtc oa secret api paas _ _ hfetch ha hp
      (proxy_ref_key_present _ _ hproxy hfrom hpfetch hkey)]
    simp
  · cases hskip : oa.Spec.SkipCertCheck <;>
      simp [certOpts, hskip, dtclient.Option.isProxy]

/-- C10 at a stored proxy secret whose value is padded with white space. -/
theorem C10_proxy_from_secret_witness :
    (storeOf [(⟨"dynatrace", "oneagent"⟩, sampleSecret),
              (⟨"dynatrace", "proxy-secret"⟩, sampleProxySecret)]).fetch
        (tokensKey proxiedOneAgent) = .ok sampleSecret
    ∧ sampleSecret.Data.lookup DynatraceApiToken = some " abc123\n"
    ∧ sampleSecret.Data.lookup DynatracePaasToken = some "xyz789"
    ∧ proxiedOneAgent.Spec.Proxy
      = some { Value := "http://inline.example:8080", ValueFrom := "proxy-secret" }
    ∧ "proxy-secret" ≠ ""
    ∧ (storeOf [(⟨"dynatrace", "oneagent"⟩, sampleSecret),
              (⟨"dynatrace", "proxy-secret"⟩, sampleProxySecret)]).fetch
        ⟨"dynatrace", "proxy-secret"⟩ = .ok sampleProxySecret
    ∧ sampleProxySecret.Data.lookup "proxy" = some " http://proxy.example:3128\n"
    ∧ BuildDynatraceClient echoClient
        (storeOf [(⟨"dynatrace", "oneagent"⟩, sampleSecret),
                  (⟨"dynatrace", "proxy-secret"⟩, sampleProxySecret)]) proxiedOneAgent
      = ⟨some ("https://ENVIRONMENTID.live.dynatrace.com/api", "abc123", "xyz789",
            [.SkipCertificateValidation true, .Proxy "http://proxy.example:3128"]), none,
         [Event.Get ⟨"dynatrace", "oneagent"⟩, Event.verifySecret sampleSecret,
          Event.Get ⟨"dynatrace", "proxy-secret"⟩,
          Event.extractToken sampleProxySecret "proxy",
          Event.extractToken sampleSecret "apiToken",
          Event.extractToken sampleSecret "paasToken",
          Event.NewClient "https://ENVIRONMENTID.live.dynatrace.com/api" "abc123" "xyz789"
            [.SkipCertificateValidation true, .Proxy "http://proxy.example:3128"]]⟩
    ∧ ([dtclient.Option.SkipCertificateValidation true,
          .Proxy "http://proxy.example:3128"]).filter dtclient.Option.isProxy
        = [.Proxy "http://proxy.example:3128"] :=
  ⟨rfl, rfl, rfl, rfl, by decide, rfl, rfl,
    C10_proxy_from_secret echoClient
      (storeOf [(⟨"dynatrace", "oneagent"⟩, sampleSecret),
                (⟨"dynatrace", "proxy-secret"⟩, sampleProxySecret)]) proxiedOneAgent sampleSecret
      " abc123\n" "xyz789" { Value := "http://inline.example:8080", ValueFrom := "proxy-secret" }
      sampleProxySecret " http://proxy.example:3128\n" rfl rfl rfl rfl (by decide) rfl rfl⟩

/-! ## The inline proxy value -/

/-- C11: with a valid token secret and a proxy configuration whose `ValueFrom` is empty
and whose inline `Value` is not, the constructor is called with the certificate options
followed by one proxy option whose URL is `Value` as it stands, not trimmed; that option
is the only proxy option, and the only store fetch of the run is the token secret. -/
theorem C11_proxy_inline_value {C : Type} (NewClient : NewClientFunc C)
    (rtc : client.Client) (oa : OneAgent) (secret : Secret) (api paas : String)
    (p : OneAgentProxy)
    (hfetch : rtc.fetch (tokensKey oa) = .ok secret)
    (ha : secret.Data.lookup DynatraceApiToken = some api)
    (hp : secret.Data.lookup DynatracePaasToken = some paas)
    (hproxy : oa.Spec.Proxy = some p) (hfrom : p.ValueFrom = "") (hval : p.Value ≠ "") :
    BuildDynatraceClient NewClient rtc oa
      = ⟨(NewClient oa.Spec.ApiUrl (strings.TrimSpace api) (strings.TrimSpace paas)
            (certOpts oa ++ [.Proxy p.Value])).1,
         (NewClient oa.Spec.ApiUrl (strings.TrimSpace api) (strings.TrimSpace paas)
            (certOpts oa ++ [.Proxy p.Value])).2,
         [Event.Get (tokensKey oa), Event.verifySecret secret,
          Event.extractToken secret DynatraceApiToken,
          Event.extractToken secret DynatracePaasToken,
          Event.NewClient oa.Spec.ApiUrl (strings.TrimSpace api) (strings.TrimSpace paas)
            (certOpts oa ++ [.Proxy p.Value])]⟩
    ∧ (certOpts oa ++ [dtclient.Option.Proxy p.Value]).filter dtclient.Option.isProxy
        = [.Proxy p.Value]
    ∧ (BuildDynatraceClient NewClient rtc oa).trace.filter Event.isGet
        = [Event.Get (tokensKey oa)] := by
  have hb := build_valid_of_block NewClient rtc oa secret api paas _ _ hfetch ha hp
    (proxy_inline _ _ hproxy hfrom hval)
  refine ⟨by rw [hb]; simp, ?_, ?_⟩
  · cases hskip : oa.Spec.SkipCertCheck <;>
      simp [certOpts, hskip, dtclient.Option.isProxy]
  · rw [hb]
    simp [Event.isGet]

/-- C11 at an inline value padded with white space: the padding reaches the constructor. -/
theorem C11_proxy_inline_value_witness :
    (storeOf [(⟨"dynatrace", "oneagent"⟩, sampleSecret)]).fetch (tokensKey inlineOneAgent)
      = .ok sampleSecret
    ∧ sampleSecret.Data.lookup DynatraceApiToken = some " abc123\n"
    ∧ sampleSecret.Data.lookup DynatracePaasToken = some "xyz789"
    ∧ inlineOneAgent.Spec.Proxy
      = some { Value := " http://inline.example:8080 ", ValueFrom := "" }
    ∧ " http://inline.example:8080 " ≠ ""
    ∧ BuildDynatraceClient echoClient (storeOf [(⟨"dynatrace", "oneagent"⟩, sampleSecret)])
        inlineOneAgent
      = ⟨some ("https://ENVIRONMENTID.live.dynatrace.com/api", "abc123", "xyz789",
            [.Proxy " http://inline.example:8080 "]), none,
         [Event.Get ⟨"dynatrace", "oneagent"⟩, Event.verifySecret sampleSecret,
          Event.extractToken sampleSecret "apiToken",
          Event.extractToken sampleSecret "paasToken",
          Event.NewClient "https://ENVIRONMENTID.live.dynatrace.com/api" "abc123" "xyz789"
            [.Proxy " http://inline.example:8080 "]]⟩
    ∧ ([dtclient.Option.Proxy " http://inline.example:8080 "]).filter dtclient.Option.isProxy
        = [.Proxy " http://inline.example:8080 "]
    ∧ (BuildDynatraceClient echoClient (storeOf [(⟨"dynatrace", "oneagent"⟩, sampleSecret)])
        inlineOneAgent).trace.filter Event.isGet
        = [Event.Get ⟨"dynatrace", "oneagent"⟩] :=
  ⟨rfl, rfl, rfl, rfl, by decide,
    C11_proxy_inline_value echoClient (storeOf [(⟨"dynatrace", "oneagent"⟩, sampleSecret)])
      inlineOneAgent sampleSecret " abc123\n" "xyz789"
      { Value := " http://inline.example:8080 ", ValueFrom := "" } rfl rfl rfl rfl rfl
      (by decide)⟩

/-! ## Token extraction -/

/-- C12: `extractToken` returns an error exactly when the key is absent from the data of
the secret; it then returns the empty string and the error whose message is
`missing token ` followed by the key. A key present with an empty value is no error. -/
theorem C12_extractToken_error_iff_absent (secret : Secret) (key : String) :
    ((extractToken secret key).2 ≠ none ↔ secret.Data.lookup key = none)
    ∧ (secret.Data.lookup key = none ↔ ∀ value, (key, value) ∉ secret.Data)
    ∧ (secret.Data.lookup key = none →
        extractToken secret key = ("", some (.errorString ("missing token " ++ key)))
        ∧ (GoError.errorString ("missing token " ++ key)).Error = "missing token " ++ key)
    ∧ (secret.Data.lookup key = some "" → extractToken secret key = ("", none)) := by
  refine ⟨?_, ?_, ?_, ?_⟩
  · cases h : secret.Data.lookup key with
    | none => simp [extractToken_absent h]
    | some value => simp [extractToken_present h]
  · rw [List.lookup_eq_none_iff]
    constructor
    · intro h value hmem
      have := h (key, value) hmem
      simp at this
    · intro h kv hmem
      rcases kv with ⟨k, v⟩
      by_cases hk : key = k
      · subst hk
        exact absurd hmem (h v)
      · simpa using hk
  · intro h
    exact ⟨extractToken_absent h, rfl⟩
  · intro h
    rw [extractToken_present h]
    have : strings.TrimSpace "" = "" := by decide
    rw [this]

/-- C12 at concrete secrets: the absent key `paasToken` is an error that names it, and
the key `apiToken` stored with an empty value is not. -/
theorem C12_extractToken_error_iff_absent_witness :
    extractToken secretNoPaas "paasToken"
      = ("", some (.errorString "missing token paasToken"))
    ∧ extractToken secretEmptyApi "apiToken" = ("", none)
    ∧ ((extractToken secretNoPaas "paasToken").2 ≠ none
        ↔ secretNoPaas.Data.lookup "paasToken" = none) :=
  ⟨by decide, by decide,
    (C12_extractToken_error_iff_absent secretNoPaas "paasToken").1⟩

/-- The first character left by `strings.trimLeft` is no white space. -/
theorem trimLeft_head (l : List Char) (c : Char) (h : (strings.trimLeft l).head? = some c) :
    unicode.IsSpace c = false := by
  have := List.head?_dropWhile_not unicode.IsSpace l
  unfold strings.trimLeft at h
  rw [h] at this
  exact this

/-- The last character left by `strings.trimRight` is no white space. -/
theorem trimRight_last (l : List Char) (c : Char)
    (h : (strings.trimRight l).getLast? = some c) : unicode.IsSpace c = false := by
  have := List.head?_dropWhile_not unicode.IsSpace l.reverse
  unfold strings.trimRight at h
  rw [List.getLast?_reverse] at h
  rw [h] at this
  exact this

/-- What `strings.trimLeft` removes is a prefix of white space. -/
theorem trimLeft_split (l : List Char) :
    l = l.takeWhile unicode.IsSpace ++ strings.trimLeft l
    ∧ ∀ c ∈ l.takeWhile unicode.IsSpace, unicode.IsSpace c = true :=
  ⟨(List.takeWhile_append_dropWhile unicode.IsSpace l).symm,
    fun _ hc => List.mem_takeWhile_imp hc⟩

/-- What `strings.trimRight` removes is a suffix of white space. -/
theorem trimRight_split (l : List Char) :
    l = strings.trimRight l ++ (l.reverse.takeWhile unicode.IsSpace).reverse
    ∧ ∀ c ∈ (l.reverse.takeWhile unicode.IsSpace).reverse, unicode.IsSpace c = true := by
  constructor
  · unfold strings.trimRight
    rw [← List.reverse_append, List.takeWhile_append_dropWhile, List.reverse_reverse]
  · intro c hc
    exact List.mem_takeWhile_imp (List.mem_reverse.mp hc)

/-- A list whose first character is no white space is left as it is by `strings.trimLeft`. -/
theorem trimLeft_fixed (l : List Char) (h : ∀ c, l.head? = some c → unicode.IsSpace c = false) :
    strings.trimLeft l = l := by
  cases l with
  | nil => rfl
  | cons a t =>
    have ha := h a rfl
    simp [strings.trimLeft, List.dropWhile, ha]

/-- A list whose last character is no white space is left as it is by `strings.trimRight`. -/
theorem trimRight_fixed (l : List Char)
    (h : ∀ c, l.getLast? = some c → unicode.IsSpace c = false) :
    strings.trimRight l = l := by
  have hrev : strings.trimLeft l.reverse = l.reverse :=
    trimLeft_fixed l.reverse (fun c hc => h c (by rw [← List.head?_reverse]; exact hc))
  unfold strings.trimRight
  unfold strings.trimLeft at hrev
  rw [hrev, List.reverse_reverse]

/-- The first character of a trimmed string is no white space. -/
theorem TrimSpace_head (s : String) (c : Char) (h : (strings.TrimSpace s).data.head? = some c) :
    unicode.IsSpace c = false := by
  have hsplit := (trimRight_split (strings.trimLeft s.data)).1
  have hd : (strings.TrimSpace s).data = strings.trimRight (strings.trimLeft s.data) := rfl
  rw [hd] at h
  apply trimLeft_head s.data c
  rw [hsplit]
  cases hr : strings.trimRight (strings.trimLeft s.data) with
  | nil => rw [hr] at h; cases h
  | cons a t => rw [hr] at h; simpa using h

/-- The last character of a trimmed string is no white space. -/
theorem TrimSpace_last (s : String) (c : Char)
    (h : (strings.TrimSpace s).data.getLast? = some c) : unicode.IsSpace c = false :=
  trimRight_last (strings.trimLeft s.data) c h

/-- Trimming a trimmed string changes nothing. -/
theorem TrimSpace_idempotent (s : String) :
    strings.TrimSpace (strings.TrimSpace s) = strings.TrimSpace s := by
  have h1 : strings.trimLeft (strings.TrimSpace s).data = (strings.TrimSpace s).data :=
    trimLeft_fixed _ (TrimSpace_head s)
  have h2 : strings.trimRight (strings.TrimSpace s).data = (strings.TrimSpace s).data :=
    trimRight_fixed _ (TrimSpace_last s)
  show String.mk (strings.trimRight (strings.trimLeft (strings.TrimSpace s).data))
    = strings.TrimSpace s
  rw [h1, h2]

/-- C13: for a key present in the data of the secret, `extractToken` returns, with no
error, the stored value without its leading and trailing white space: the value is a run
of white space, then the result, then a run of white space; the result neither starts
nor ends with white space, and trimming it again leaves it unchanged. -/
theorem C13_extractToken_trims (secret : Secret) (key value : String)
    (h : secret.Data.lookup key = some value) :
    extractToken secret key = (strings.TrimSpace value, none)
    ∧ (∃ leading trailing : List Char,
        value.data = leading ++ (strings.TrimSpace value).data ++ trailing
        ∧ (∀ c ∈ leading, unicode.IsSpace c = true)
        ∧ (∀ c ∈ trailing, unicode.IsSpace c = true))
    ∧ (∀ c, (strings.TrimSpace value).data.head? = some c → unicode.IsSpace c = false)
    ∧ (∀ c, (strings.TrimSpace value).data.getLast? = some c → unicode.IsSpace c = false)
    ∧ strings.TrimSpace (strings.TrimSpace value) = strings.TrimSpace value := by
  refine ⟨extractToken_present h, ?_, TrimSpace_head value, TrimSpace_last value,
    TrimSpace_idempotent value⟩
  obtain ⟨hl, hlsp⟩ := trimLeft_split value.data
  obtain ⟨hr, hrsp⟩ := trimRight_split (strings.trimLeft value.data)
  refine ⟨_, _, ?_, hlsp, hrsp⟩
  show value.data = _ ++ strings.trimRight (strings.trimLeft value.data) ++ _
  rw [List.append_assoc, ← hr, ← hl]

/-- C13 at the sample secret: ` abc123` followed by a newline yields `abc123`. -/
theorem C13_extractToken_trims_witness :
    sampleSecret.Data.lookup "apiToken" = some " abc123\n"
    ∧ extractToken sampleSecret "apiToken" = ("abc123", none)
    ∧ (∃ leading trailing : List Char,
        " abc123\n".data = leading ++ "abc123".data ++ trailing
        ∧ (∀ c ∈ leading, unicode.IsSpace c = true)
        ∧ (∀ c ∈ trailing, unicode.IsSpace c = true))
    ∧ (∀ c, "abc123".data.head? = some c → unicode.IsSpace c = false)
    ∧ (∀ c, "abc123".data.getLast? = some c → unicode.IsSpace c = false)
    ∧ strings.TrimSpace "abc123" = "abc123" :=
  ⟨rfl, C13_extractToken_trims sampleSecret "apiToken" " abc123\n" rfl⟩

/-- The second half of the example of C13: a value without white space is returned as it
stands. -/
theorem extractToken_sample_paas :
    extractToken sampleSecret "paasToken" = ("xyz789", none) := by
  decide

/-! ## The store fetches -/

/-- The store fetches of the proxy block are those the proxy configuration asks for. -/
theorem proxy_gets (rtc : client.Client) (oa : OneAgent) (opts : List dtclient.Option)
    (tr : List Event) :
    (BuildDynatraceClient.proxy rtc oa opts tr).2.2.filter Event.isGet
      = tr.filter Event.isGet ++ proxyFetches oa := by
  cases h : oa.Spec.Proxy with
  | none => simp [proxy_absent _ _ h, proxyFetches, h]
  | some p =>
    by_cases hfrom : p.ValueFrom = ""
    · by_cases hval : p.Value = ""
      · simp [proxy_blank _ _ h hfrom hval, proxyFetches, h, hfrom]
      · simp [proxy_inline _ _ h hfrom hval, proxyFetches, h, hfrom]
    · cases hfetch : rtc.fetch ⟨oa.Namespace, p.ValueFrom⟩ with
      | error e =>
        simp [proxy_ref_fetch_error _ _ h hfrom hfetch, proxyFetches, h, hfrom, Event.isGet]
      | ok ps =>
        cases hkey : ps.Data.lookup "proxy" with
        | none =>
          simp [proxy_ref_key_absent _ _ h hfrom hfetch hkey, proxyFetches, h, hfrom,
            Event.isGet]
        | some v =>
          simp [proxy_ref_key_present _ _ h hfrom hfetch hkey, proxyFetches, h, hfrom,
            Event.isGet]

/-- The first recorded call of every run is the fetch of the token secret. -/
theorem build_trace_head {C : Type} (NewClient : NewClientFunc C) (rtc : client.Client)
    (oa : OneAgent) :
    (BuildDynatraceClient NewClient rtc oa).trace.head? = some (Event.Get (tokensKey oa)) := by
  cases hfetch : rtc.fetch (tokensKey oa) with
  | error e =>
    cases hnf : errors.IsNotFound (some e) with
    | false => rw [build_fetch_error NewClient rtc oa e hfetch hnf]; rfl
    | true =>
      rw [build_invalid NewClient rtc oa _ _ _ (Get_error {} hfetch) (Or.inr hnf)
        (verifySecret_missing (Or.inl rfl))]
      rfl
  | ok secret =>
    cases ha : secret.Data.lookup DynatraceApiToken with
    | none =>
      rw [build_invalid NewClient rtc oa _ _ _ (Get_ok {} hfetch) (Or.inl rfl)
        (verifySecret_missing (Or.inl ha))]
      rfl
    | some api =>
      cases hp : secret.Data.lookup DynatracePaasToken with
      | none =>
        rw [build_invalid NewClient rtc oa _ _ _ (Get_ok {} hfetch) (Or.inl rfl)
          (verifySecret_missing (Or.inr hp))]
        rfl
      | some paas =>
        obtain ⟨err, popts, ptr, hblock, -, -, -⟩ := proxy_shape rtc oa
          (certOpts oa) [Event.Get (tokensKey oa), Event.verifySecret secret]
        rw [build_valid NewClient rtc oa secret api paas hfetch ha hp, hblock]
        cases err <;> rfl

/-- The store fetches of a run: the token secret, and then the fetch the proxy
configuration asks for when the first fetch did not fail fatally and validation passed. -/
theorem build_gets {C : Type} (NewClient : NewClientFunc C) (rtc : client.Client)
    (oa : OneAgent) :
    (BuildDynatraceClient NewClient rtc oa).trace.filter Event.isGet
      = Event.Get (tokensKey oa) ::
          (if ¬ ((rtc.Get (tokensKey oa) {}).2 ≠ none
                  ∧ errors.IsNotFound (rtc.Get (tokensKey oa) {}).2 = false)
              ∧ verifySecret (rtc.Get (tokensKey oa) {}).1 = none
            then proxyFetches oa else []) := by
  cases hfetch : rtc.fetch (tokensKey oa) with
  | error e =>
    have hget := Get_error {} hfetch
    cases hnf : errors.IsNotFound (some e) with
    | false =>
      rw [build_fetch_error NewClient rtc oa e hfetch hnf, hget]
      simp [Event.isGet, hnf]
    | true =>
      have hv := @verifySecret_missing {} (Or.inl rfl)
      rw [build_invalid NewClient rtc oa _ _ _ hget (Or.inr hnf) hv, hget]
      simp [Event.isGet, hv]
  | ok secret =>
    have hget := Get_ok {} hfetch
    cases ha : secret.Data.lookup DynatraceApiToken with
    | none =>
      have hv := verifySecret_missing (Or.inl ha)
      rw [build_invalid NewClient rtc oa _ _ _ hget (Or.inl rfl) hv, hget]
      simp [Event.isGet, hv]
    | some api =>
      cases hp : secret.Data.lookup DynatracePaasToken with
      | none =>
        have hv := verifySecret_missing (Or.inr hp)
        rw [build_invalid NewClient rtc oa _ _ _ hget (Or.inl rfl) hv, hget]
        simp [Event.isGet, hv]
      | some paas =>
        have hv := verifySecret_present ha hp
        have hg := proxy_gets rtc oa (certOpts oa)
          [Event.Get (tokensKey oa), Event.verifySecret secret]
        rw [build_valid NewClient rtc oa secret api paas hfetch ha hp, hget]
        rcases hblock : BuildDynatraceClient.proxy rtc oa (certOpts oa)
          [Event.Get (tokensKey oa), Event.verifySecret secret] with ⟨err, opts, tr⟩
        rw [hblock] at hg
        simp only at hg
        cases err with
        | some err =>
          simp only [hg]
          simp [Event.isGet, hv]
        | none =>
          simp only [List.filter_append, hg]
          simp [Event.isGet, hv]

/-! ## The name of the token secret -/

/-- C14: `GetTokensName` returns the override `Spec.Tokens` when it is not empty, whatever
the name of the instance, and the name of the instance otherwise; and the first call of
every run of `BuildDynatraceClient` is the fetch of the secret at the namespace of the
instance and the name `GetTokensName` gives. -/
theorem C14_tokens_secret_address {C : Type} (NewClient : NewClientFunc C)
    (rtc : client.Client) (oa : OneAgent) :
    (oa.Spec.Tokens ≠ "" → GetTokensName oa = oa.Spec.Tokens)
    ∧ (oa.Spec.Tokens = "" → GetTokensName oa = oa.Name)
    ∧ (BuildDynatraceClient NewClient rtc oa).trace.head?
        = some (Event.Get ⟨oa.Namespace, GetTokensName oa⟩) := by
  refine ⟨?_, ?_, build_trace_head NewClient rtc oa⟩
  · intro h
    simp [GetTokensName, h]
  · intro h
    simp [GetTokensName, h]

/-- C14 at an instance named `oneagent` whose override is `custom-tokens`. -/
theorem C14_tokens_secret_address_witness :
    GetTokensName overrideOneAgent = "custom-tokens"
    ∧ (BuildDynatraceClient echoClient (storeOf []) overrideOneAgent).trace.head?
        = some (Event.Get ⟨"dynatrace", "custom-tokens"⟩) :=
  ⟨(C14_tokens_secret_address echoClient (storeOf []) overrideOneAgent).1 (by decide),
    (C14_tokens_secret_address echoClient (storeOf []) overrideOneAgent).2.2⟩

/-! ## Validation -/

/-- C15: for a secret that lacks exactly one of the two required keys, `verifySecret`
fails with the error whose message is `invalid secret <name>, ` followed, once, by the
message of the missing-key error of `extractToken`, that is
`invalid secret <name>, missing token <key>` for the missing key. -/
theorem C15_verifySecret_names_secret_and_key (secret : Secret) (key : String)
    (h : (key = DynatraceApiToken ∧ secret.Data.lookup DynatraceApiToken = none
          ∧ secret.Data.lookup DynatracePaasToken ≠ none)
      ∨ (key = DynatracePaasToken ∧ secret.Data.lookup DynatracePaasToken = none
          ∧ secret.Data.lookup DynatraceApiToken ≠ none)) :
    verifySecret secret = some (.errorString
      ("invalid secret " ++ secret.Name ++ ", missing token " ++ key))
    ∧ ∃ e, (extractToken secret key).2 = some e
        ∧ e.Error = "missing token " ++ key
        ∧ verifySecret secret = some (.errorString
            ("invalid secret " ++ secret.Name ++ ", " ++ e.Error)) := by
  have hv : verifySecret secret = some (.errorString
      ("invalid secret " ++ secret.Name ++ ", missing token " ++ key)) := by
    rcases h with ⟨rfl, ha, hp⟩ | ⟨rfl, hp, _⟩
    · cases hp2 : secret.Data.lookup DynatracePaasToken with
      | none => exact absurd hp2 hp
      | some paas => exact verifySecret_api_absent hp2 ha
    · exact verifySecret_paas_absent hp
  have hk : secret.Data.lookup key = none := by
    rcases h with ⟨rfl, ha, _⟩ | ⟨rfl, hp, _⟩
    · exact ha
    · exact hp
  refine ⟨hv, .errorString ("missing token " ++ key), ?_, rfl, ?_⟩
  · rw [extractToken_absent hk]
  · rw [hv, invalid_secret_message]

/-- C15 at a secret named `oneagent` that lacks `paasToken`. -/
theorem C15_verifySecret_names_secret_and_key_witness :
    ((("paasToken" : String) = DynatraceApiToken
          ∧ secretNoPaas.Data.lookup DynatraceApiToken = none
          ∧ secretNoPaas.Data.lookup DynatracePaasToken ≠ none)
      ∨ ("paasToken" = DynatracePaasToken ∧ secretNoPaas.Data.lookup DynatracePaasToken = none
          ∧ secretNoPaas.Data.lookup DynatraceApiToken ≠ none))
    ∧ verifySecret secretNoPaas
        = some (.errorString "invalid secret oneagent, missing token paasToken")
    ∧ ∃ e, (extractToken secretNoPaas "paasToken").2 = some e
        ∧ e.Error = "missing token " ++ "paasToken"
        ∧ verifySecret secretNoPaas = some (.errorString
            ("invalid secret " ++ secretNoPaas.Name ++ ", " ++ e.Error)) :=
  ⟨by decide,
    C15_verifySecret_names_secret_and_key secretNoPaas "paasToken" (by decide)⟩

/-- C16, as stated, fails: on the empty secret, which lacks both keys, the error of
`verifySecret` names `paasToken`, not `apiToken`. -/
theorem C16_order_counterexample :
    (({} : Secret).Data.lookup DynatraceApiToken = none
      ∧ ({} : Secret).Data.lookup DynatracePaasToken = none)
    ∧ verifySecret {} = some (.errorString "invalid secret , missing token paasToken")
    ∧ verifySecret {} ≠ some (.errorString "invalid secret , missing token apiToken") := by
  decide

/-- C16, amended: `verifySecret` runs token extraction for the two required keys in the
fixed order PaaS token key first, then API token key; hence for every secret that lacks
both keys the error that surfaces names `paasToken`, not `apiToken`. -/
theorem C16_paas_token_checked_first (secret : Secret)
    (_ha : secret.Data.lookup DynatraceApiToken = none)
    (hp : secret.Data.lookup DynatracePaasToken = none) :
    verifySecret secret = verifySecret.loop secret [DynatracePaasToken, DynatraceApiToken]
    ∧ verifySecret secret = some (.errorString
        ("invalid secret " ++ secret.Name ++ ", missing token " ++ "paasToken"))
    ∧ verifySecret secret ≠ some (.errorString
        ("invalid secret " ++ secret.Name ++ ", missing token " ++ "apiToken")) := by
  have hv := verifySecret_paas_absent hp
  refine ⟨rfl, hv, ?_⟩
  rw [hv]
  intro heq
  have hs : "invalid secret " ++ secret.Name ++ ", missing token " ++ DynatracePaasToken
      = "invalid secret " ++ secret.Name ++ ", missing token " ++ "apiToken" := by
    simpa using heq
  have hd := congrArg String.data hs
  simp only [String.data_append] at hd
  have := List.append_cancel_left hd
  revert this
  decide

/-- C16, amended, at a secret named `oneagent` with no data. -/
theorem C16_paas_token_checked_first_witness :
    ({ Name := "oneagent" } : Secret).Data.lookup DynatraceApiToken = none
    ∧ ({ Name := "oneagent" } : Secret).Data.lookup DynatracePaasToken = none
    ∧ verifySecret { Name := "oneagent" }
        = verifySecret.loop { Name := "oneagent" } [DynatracePaasToken, DynatraceApiToken]
    ∧ verifySecret { Name := "oneagent" }
        = some (.errorString "invalid secret oneagent, missing token paasToken")
    ∧ verifySecret { Name := "oneagent" }
        ≠ some (.errorString "invalid secret oneagent, missing token apiToken") :=
  ⟨rfl, rfl, C16_paas_token_checked_first { Name := "oneagent" } rfl rfl⟩

/-! ## The static resolver -/

/-- C17: for every client `c`, every store and every instance, `nil` included, the
resolver `StaticDynatraceClient c` returns `c` and no error, and makes no call at all,
so no store fetch. -/
theorem C17_static_client_returns_c {C : Type} (c : Option C) (rtc : Option client.Client)
    (oa : Option OneAgent) :
    StaticDynatraceClient c rtc oa = ⟨c, none, []⟩
    ∧ (StaticDynatraceClient c rtc oa).client = c
    ∧ (StaticDynatraceClient c rtc oa).err = none
    ∧ (StaticDynatraceClient c rtc oa).trace.filter Event.isGet = [] :=
  ⟨rfl, rfl, rfl, rfl⟩

/-! ## The extractions after validation -/

/-- The calls recorded by the proxy block are store fetches, log lines and extractions
of the key `proxy`. -/
theorem proxy_trace_events (rtc : client.Client) (oa : OneAgent)
    (opts : List dtclient.Option) (tr : List Event) :
    ∃ ptr, (BuildDynatraceClient.proxy rtc oa opts tr).2.2 = tr ++ ptr
      ∧ ∀ ev ∈ ptr, (∃ key, ev = Event.Get key) ∨ (∃ msg, ev = Event.Info msg)
          ∨ ∃ ps, ev = Event.extractToken ps "proxy" := by
  cases h : oa.Spec.Proxy with
  | none => exact ⟨[], by simp [proxy_absent _ _ h], by simp⟩
  | some p =>
    by_cases hfrom : p.ValueFrom = ""
    · by_cases hval : p.Value = ""
      · exact ⟨[], by simp [proxy_blank _ _ h hfrom hval], by simp⟩
      · exact ⟨[], by simp [proxy_inline _ _ h hfrom hval], by simp⟩
    · cases hfetch : rtc.fetch ⟨oa.Namespace, p.ValueFrom⟩ with
      | error e =>
        refine ⟨[Event.Get ⟨oa.Namespace, p.ValueFrom⟩, Event.Info proxyFetchFailed],
          by rw [proxy_ref_fetch_error _ _ h hfrom hfetch], ?_⟩
        intro ev hev
        simp only [List.mem_cons, List.mem_singleton, List.not_mem_nil, or_false] at hev
        rcases hev with rfl | rfl
        · exact Or.inl ⟨_, rfl⟩
        · exact Or.inr (Or.inl ⟨_, rfl⟩)
      | ok ps =>
        have hev : ∀ ev ∈ [Event.Get ⟨oa.Namespace, p.ValueFrom⟩,
            Event.extractToken ps "proxy"],
            (∃ key, ev = Event.Get key) ∨ (∃ msg, ev = Event.Info msg)
              ∨ ∃ ps, ev = Event.extractToken ps "proxy" := by
          intro ev hev
          simp only [List.mem_cons, List.mem_singleton, List.not_mem_nil, or_false] at hev
          rcases hev with rfl | rfl
          · exact Or.inl ⟨_, rfl⟩
          · exact Or.inr (Or.inr ⟨_, rfl⟩)
        cases hkey : ps.Data.lookup "proxy" with
        | none => exact ⟨_, by rw [proxy_ref_key_absent _ _ h hfrom hfetch hkey], hev⟩
        | some v => exact ⟨_, by rw [proxy_ref_key_present _ _ h hfrom hfetch hkey], hev⟩

/-- The validation passes exactly when both required keys are present. -/
theorem verifySecret_eq_none_iff (secret : Secret) :
    verifySecret secret = none
      ↔ secret.Data.lookup DynatraceApiToken ≠ none
        ∧ secret.Data.lookup DynatracePaasToken ≠ none := by
  cases ha : secret.Data.lookup DynatraceApiToken with
  | none => simp [verifySecret_missing (Or.inl ha)]
  | some api =>
    cases hp : secret.Data.lookup DynatracePaasToken with
    | none => simp [verifySecret_missing (Or.inr hp)]
    | some paas => simp [verifySecret_present ha hp]

/-- C18: `verifySecret` returns `nil` exactly when `apiToken` and `paasToken` are both
keys of the data of the secret, whatever their values; a secret that passes validation
makes both extractions succeed; and in every run of `BuildDynatraceClient` every recorded
extraction of `apiToken` or `paasToken`, which are the re-run extractions after the proxy
block, returns no error, so their error returns are never taken. -/
theorem C18_extractions_after_validation_succeed {C : Type} (NewClient : NewClientFunc C)
    (rtc : client.Client) (oa : OneAgent) :
    (∀ secret : Secret, verifySecret secret = none
        ↔ secret.Data.lookup DynatraceApiToken ≠ none
          ∧ secret.Data.lookup DynatracePaasToken ≠ none)
    ∧ (∀ secret : Secret, verifySecret secret = none →
        (extractToken secret DynatraceApiToken).2 = none
        ∧ (extractToken secret DynatracePaasToken).2 = none)
    ∧ (∀ (secret : Secret) (key : String),
        key = DynatraceApiToken ∨ key = DynatracePaasToken →
        Event.extractToken secret key ∈ (BuildDynatraceClient NewClient rtc oa).trace →
        (extractToken secret key).2 = none) := by
  refine ⟨verifySecret_eq_none_iff, ?_, ?_⟩
  · intro secret hv
    obtain ⟨ha, hp⟩ := (verifySecret_eq_none_iff secret).mp hv
    cases ha2 : secret.Data.lookup DynatraceApiToken with
    | none => exact absurd ha2 ha
    | some api =>
      cases hp2 : secret.Data.lookup DynatracePaasToken with
      | none => exact absurd hp2 hp
      | some paas => simp [extractToken_present ha2, extractToken_present hp2]
  · intro s key hkey hmem
    have hnotproxy : key ≠ "proxy" := by
      rcases hkey with rfl | rfl <;> decide
    have hfront : ∀ (s0 : Secret) (ptr : List Event),
        (∀ ev ∈ ptr, (∃ k, ev = Event.Get k) ∨ (∃ msg, ev = Event.Info msg)
          ∨ ∃ ps, ev = Event.extractToken ps "proxy") →
        Event.extractToken s key
          ∉ [Event.Get (tokensKey oa), Event.verifySecret s0] ++ ptr := by
      intro s0 ptr hptr hin
      simp only [List.mem_append, List.mem_cons, List.mem_singleton, List.not_mem_nil,
        or_false] at hin
      rcases hin with (hin | hin) | hin
      · cases hin
      · cases hin
      · rcases hptr _ hin with ⟨k, hk⟩ | ⟨msg, hk⟩ | ⟨ps, hk⟩
        · cases hk
        · cases hk
        · injection hk with _ hk2
          exact hnotproxy hk2
    cases hfetch : rtc.fetch (tokensKey oa) with
    | error e =>
      cases hnf : errors.IsNotFound (some e) with
      | false =>
        rw [build_fetch_error NewClient rtc oa e hfetch hnf] at hmem
        simp at hmem
      | true =>
        rw [build_invalid NewClient rtc oa _ _ _ (Get_error {} hfetch) (Or.inr hnf)
          (verifySecret_missing (Or.inl rfl))] at hmem
        simp at hmem
    | ok secret =>
      cases ha : secret.Data.lookup DynatraceApiToken with
      | none =>
        rw [build_invalid NewClient rtc oa _ _ _ (Get_ok {} hfetch) (Or.inl rfl)
          (verifySecret_missing (Or.inl ha))] at hmem
        simp at hmem
      | some api =>
        cases hp : secret.Data.lookup DynatracePaasToken with
        | none =>
          rw [build_invalid NewClient rtc oa _ _ _ (Get_ok {} hfetch) (Or.inl rfl)
            (verifySecret_missing (Or.inr hp))] at hmem
          simp at hmem
        | some paas =>
          obtain ⟨ptr, hptr, hevs⟩ := proxy_trace_events rtc oa (certOpts oa)
            [Event.Get (tokensKey oa), Event.verifySecret secret]
          rw [build_valid NewClient rtc oa secret api paas hfetch ha hp] at hmem
          rcases hblock : BuildDynatraceClient.proxy rtc oa (certOpts oa)
            [Event.Get (tokensKey oa), Event.verifySecret secret] with ⟨err, opts, tr⟩
          rw [hblock] at hmem hptr
          simp only at hptr
          subst hptr
          cases err with
          | some err => exact absurd hmem (hfront secret ptr hevs)
          | none =>
            simp only [List.mem_append] at hmem
            rcases hmem with hmem | hmem
            · exact absurd (List.mem_append.mpr hmem) (hfront secret ptr hevs)
            · simp only [List.mem_cons, List.mem_singleton, List.not_mem_nil,
                or_false] at hmem
              rcases hmem with hmem | hmem | hmem
              · injection hmem with h1 h2
                subst h1 h2
                rw [extractToken_present ha]
              · injection hmem with h1 h2
                subst h1 h2
                rw [extractToken_present hp]
              · cases hmem

/-- C18 at the sample secret: both re-run extractions are recorded and succeed. -/
theorem C18_extractions_after_validation_succeed_witness :
    Event.extractToken sampleSecret "apiToken"
      ∈ (BuildDynatraceClient echoClient (storeOf [(⟨"dynatrace", "oneagent"⟩, sampleSecret)])
          sampleOneAgent).trace
    ∧ (extractToken sampleSecret "apiToken").2 = none :=
  ⟨by decide,
    (C18_extractions_after_validation_succeed echoClient
      (storeOf [(⟨"dynatrace", "oneagent"⟩, sampleSecret)]) sampleOneAgent).2.2
      sampleSecret "apiToken" (Or.inl rfl) (by decide)⟩

/-! ## The store operations of a run -/

/-- C19: the store operations of a run of `BuildDynatraceClient` are one or two fetches.
The first is the token secret; a second one, of the secret at the namespace of the
instance and the name `ValueFrom`, is made exactly when the first fetch did not fail
with an error other than not-found, validation passed and the proxy configuration is
present with a non-empty `ValueFrom`. A failed validation and a failed first fetch are
followed by no further fetch. -/
theorem C19_one_or_two_fetches {C : Type} (NewClient : NewClientFunc C)
    (rtc : client.Client) (oa : OneAgent) :
    (BuildDynatraceClient NewClient rtc oa).trace.filter Event.isGet
      = Event.Get (tokensKey oa) ::
          (if ¬ ((rtc.Get (tokensKey oa) {}).2 ≠ none
                  ∧ errors.IsNotFound (rtc.Get (tokensKey oa) {}).2 = false)
              ∧ verifySecret (rtc.Get (tokensKey oa) {}).1 = none
            then (match oa.Spec.Proxy with
              | some p =>
                if p.ValueFrom ≠ "" then [Event.Get ⟨oa.Namespace, p.ValueFrom⟩] else []
              | none => [])
            else [])
    ∧ 1 ≤ ((BuildDynatraceClient NewClient rtc oa).trace.filter Event.isGet).length
    ∧ ((BuildDynatraceClient NewClient rtc oa).trace.filter Event.isGet).length ≤ 2
    ∧ (verifySecret (rtc.Get (tokensKey oa) {}).1 ≠ none →
        (BuildDynatraceClient NewClient rtc oa).trace.filter Event.isGet
          = [Event.Get (tokensKey oa)])
    ∧ ((rtc.Get (tokensKey oa) {}).2 ≠ none →
        (BuildDynatraceClient NewClient rtc oa).trace.filter Event.isGet
          = [Event.Get (tokensKey oa)]) := by
  have hg := build_gets NewClient rtc oa
  have hlen : (proxyFetches oa).length ≤ 1 := by
    unfold proxyFetches
    cases oa.Spec.Proxy with
    | none => simp
    | some p => by_cases hfrom : p.ValueFrom = "" <;> simp [hfrom]
  refine ⟨hg, ?_, ?_, ?_, ?_⟩
  · rw [hg]
    simp
  · rw [hg]
    split
    · simpa using hlen
    · simp
  · intro hv
    rw [hg]
    simp [hv]
  · intro herr
    rw [hg]
    cases hfetch : rtc.fetch (tokensKey oa) with
    | ok secret =>
      rw [Get_ok {} hfetch] at herr
      exact absurd rfl herr
    | error e =>
      have hv := @verifySecret_missing {} (Or.inl rfl)
      rw [Get_error {} hfetch]
      simp [hv]

/-- C19 at a store holding the token secret and the proxy secret: two fetches, the
token secret first. -/
theorem C19_one_or_two_fetches_witness :
    (BuildDynatraceClient echoClient
        (storeOf [(⟨"dynatrace", "oneagent"⟩, sampleSecret),
                  (⟨"dynatrace", "proxy-secret"⟩, sampleProxySecret)])
        proxiedOneAgent).trace.filter Event.isGet
      = [Event.Get ⟨"dynatrace", "oneagent"⟩, Event.Get ⟨"dynatrace", "proxy-secret"⟩]
    ∧ ((BuildDynatraceClient echoClient
        (storeOf [(⟨"dynatrace", "oneagent"⟩, sampleSecret),
                  (⟨"dynatrace", "proxy-secret"⟩, sampleProxySecret)])
        proxiedOneAgent).trace.filter Event.isGet).length ≤ 2 :=
  ⟨by decide,
    (C19_one_or_two_fetches echoClient
      (storeOf [(⟨"dynatrace", "oneagent"⟩, sampleSecret),
                (⟨"dynatrace", "proxy-secret"⟩, sampleProxySecret)]) proxiedOneAgent).2.2.1⟩

/-! ## The empty proxy configuration -/

/-- With both fields empty, the proxy block does what it does without a configuration. -/
theorem proxy_blank_as_absent (rtc : client.Client) (oa : OneAgent) (p : OneAgentProxy)
    (opts : List dtclient.Option) (tr : List Event)
    (hproxy : oa.Spec.Proxy = some p) (hfrom : p.ValueFrom = "") (hval : p.Value = "") :
    BuildDynatraceClient.proxy rtc oa opts tr
      = BuildDynatraceClient.proxy rtc
          { oa with Spec := { oa.Spec with Proxy := none } } opts tr := by
  rw [proxy_blank _ _ hproxy hfrom hval, proxy_absent _ _ rfl]

/-- C20: a proxy configuration that is present with `ValueFrom` and `Value` both empty
gives the outcome of the same instance without proxy configuration: the proxy block
returns no error and leaves options and trace as they were, the only store fetch is the
token secret, and a constructor call receives the certificate options alone. -/
theorem C20_blank_proxy_like_absent {C : Type} (NewClient : NewClientFunc C)
    (rtc : client.Client) (oa : OneAgent) (p : OneAgentProxy)
    (hproxy : oa.Spec.Proxy = some p) (hfrom : p.ValueFrom = "") (hval : p.Value = "") :
    BuildDynatraceClient NewClient rtc oa
      = BuildDynatraceClient NewClient rtc { oa with Spec := { oa.Spec with Proxy := none } }
    ∧ (∀ opts tr, BuildDynatraceClient.proxy rtc oa opts tr = (none, opts, tr))
    ∧ (BuildDynatraceClient NewClient rtc oa).trace.filter Event.isGet
        = [Event.Get (tokensKey oa)]
    ∧ (∀ url apiToken paasToken opts,
        Event.NewClient url apiToken paasToken opts
          ∈ (BuildDynatraceClient NewClient rtc oa).trace →
        opts = certOpts oa ∧ ∀ o ∈ opts, o.isProxy = false) := by
  have hblock := fun opts tr => proxy_blank_as_absent rtc oa p opts tr hproxy hfrom hval
  have heq : BuildDynatraceClient NewClient rtc oa
      = BuildDynatraceClient NewClient rtc
          { oa with Spec := { oa.Spec with Proxy := none } } := by
    unfold BuildDynatraceClient
    simp only [hblock]
    rfl
  refine ⟨heq, fun opts tr => proxy_blank _ _ hproxy hfrom hval, ?_, ?_⟩
  · rw [build_gets NewClient rtc oa]
    simp [proxyFetches, hproxy, hfrom]
  · intro url apiToken paasToken opts hmem
    rw [heq] at hmem
    obtain ⟨popts, hopts, -, hnone⟩ := newClient_opts_shape NewClient rtc _ url apiToken
      paasToken opts hmem
    have hp0 : popts = [] := hnone rfl
    subst hp0
    have hc : opts = certOpts oa := by
      rw [hopts, List.append_nil]
      rfl
    refine ⟨hc, ?_⟩
    rw [hc]
    intro o ho
    cases hskip : oa.Spec.SkipCertCheck <;> simp [certOpts, hskip] at ho
    subst ho
    rfl

/-- C20 at the sample instance with an empty proxy configuration. -/
theorem C20_blank_proxy_like_absent_witness :
    blankProxyOneAgent.Spec.Proxy = some { Value := "", ValueFrom := "" }
    ∧ BuildDynatraceClient echoClient (storeOf [(⟨"dynatrace", "oneagent"⟩, sampleSecret)])
        blankProxyOneAgent
      = BuildDynatraceClient echoClient (storeOf [(⟨"dynatrace", "oneagent"⟩, sampleSecret)])
          { blankProxyOneAgent with Spec := { blankProxyOneAgent.Spec with Proxy := none } }
    ∧ (∀ opts tr, BuildDynatraceClient.proxy
          (storeOf [(⟨"dynatrace", "oneagent"⟩, sampleSecret)]) blankProxyOneAgent opts tr
        = (none, opts, tr))
    ∧ (BuildDynatraceClient echoClient (storeOf [(⟨"dynatrace", "oneagent"⟩, sampleSecret)])
        blankProxyOneAgent).trace.filter Event.isGet
        = [Event.Get ⟨"dynatrace", "oneagent"⟩]
    ∧ (∀ url apiToken paasToken opts,
        Event.NewClient url apiToken paasToken opts
          ∈ (BuildDynatraceClient echoClient
              (storeOf [(⟨"dynatrace", "oneagent"⟩, sampleSecret)]) blankProxyOneAgent).trace →
        opts = certOpts blankProxyOneAgent ∧ ∀ o ∈ opts, o.isProxy = false) :=
  ⟨rfl,
    C20_blank_proxy_like_absent echoClient
      (storeOf [(⟨"dynatrace", "oneagent"⟩, sampleSecret)]) blankProxyOneAgent
      { Value := "", ValueFrom := "" } rfl rfl rfl⟩
